import Mathlib

set_option maxHeartbeats 1000000

/-!
Shallow embedding of NonCons.py (solab-ntu/OptProblem): a name-keyed catalog
of unconstrained optimization benchmark problems.  The Python constructor
NonCons.__init__(name, dimensions=2) is embedded as a function from the name
and the dimensionality to either an error (the branches that raise) or a
fully populated problem descriptor.  Python floats are modelled as real
numbers, Python lists as Lean lists; float powers with an integral exponent
(such as xi**2.0) are modelled by monoid powers, genuinely fractional
exponents (such as **0.1) by real powers.
-/

/-- Python list indexing x[i] modelled with default value 0.  Every index the
embedded evaluators use on the documented inputs is in range; the source
raises IndexError for an out-of-range index instead of returning the
default. -/
noncomputable def nth0 (x : List ℝ) (i : ℕ) : ℝ := x.getD i 0

/-- Indexing a matrix (a list of rows) at row i, column j. -/
noncomputable def nth2 (m : List (List ℝ)) (i j : ℕ) : ℝ := nth0 (m.getD i []) j

/-- The failures NonCons.__init__ can signal. -/
inductive PyError where
  /-- A branch executing raise TypeError(msg). -/
  | typeError (msg : String)
  /-- The final else branch executes a raise of a bare string object.  Python 3
  rejects raising a non-exception, so the caller observes a TypeError about
  BaseException; either way construction fails, and the only payload present
  in the source is this fixed string, which does not mention the requested
  name. -/
  | badRaise (payload : String)
deriving DecidableEq

/-- The problem descriptor built by NonCons.__init__: objective, constraint
placeholder, bounds, documented optimum locations and optimum value.  A flat
self.xopt list in the source denotes a single location and is embedded as a
one-element list of locations; branches that assign a list of lists keep all
their locations. -/
structure NonCons where
  obj : List ℝ → ℝ
  cns : Option (List ℝ → ℝ)
  lb : List ℝ
  ub : List ℝ
  xopt : List (List ℝ)
  fopt : ℝ

/-! ### Objective evaluators, one per implemented branch, translated from the
branch bodies.  Accumulation loops become sums/products of mapped lists; a
loop for ii in range(1, n+1) becomes a map over List.range n with ii = k+1. -/

/-- 1.1 Ackley.  The loop for xi in x iterates over every component of the
supplied point; only the normalizations sum1/d and sum2/d use dimensions. -/
noncomputable def ackleyObj (dimensions : ℕ) (x : List ℝ) : ℝ :=
  let d : ℝ := dimensions
  let a : ℝ := 20.0
  let b : ℝ := 0.2
  let c : ℝ := 2.0 * Real.pi
  let sum1 : ℝ := (x.map (fun xi => xi ^ 2)).sum
  let sum2 : ℝ := (x.map (fun xi => Real.cos (c * xi))).sum
  let term1 : ℝ := -a * Real.exp (-b * Real.sqrt (sum1 / d))
  let term2 : ℝ := -Real.exp (sum2 / d)
  term1 + term2 + a + Real.exp 1

/-- 1.2 Bukin N. 6. -/
noncomputable def bukinObj (x : List ℝ) : ℝ :=
  let x1 := nth0 x 0
  let x2 := nth0 x 1
  100.0 * Real.sqrt (|x2 - 0.01 * x1 ^ 2|) + 0.01 * |x1 + 10.0|

/-- 1.3 Cross-in-Tray. -/
noncomputable def crossInTrayObj (x : List ℝ) : ℝ :=
  let x1 := nth0 x 0
  let x2 := nth0 x 1
  let fact1 := Real.sin x1 * Real.sin x2
  let fact2 := Real.exp (|100.0 - Real.sqrt (x1 ^ 2 + x2 ^ 2) / Real.pi|)
  let y := -0.0001 * (|fact1 * fact2| + 1.0) ^ (0.1 : ℝ)
  y

/-- 1.4 Drop-Wave. -/
noncomputable def dropWaveObj (x : List ℝ) : ℝ :=
  let x1 := nth0 x 0
  let x2 := nth0 x 1
  let y := -(1.0 + Real.cos (12.0 * Real.sqrt (x1 ^ 2 + x2 ^ 2))) /
    (0.5 * (x1 ^ 2 + x2 ^ 2) + 2.0)
  y

/-- 1.5 Eggholder. -/
noncomputable def eggholderObj (x : List ℝ) : ℝ :=
  let x1 := nth0 x 0
  let x2 := nth0 x 1
  let y := -(x2 + 47.0) * Real.sin (Real.sqrt (|x2 + x1 / 2.0 + 47.0|)) +
    (-x1 * Real.sin (Real.sqrt (|x1 - (x2 + 47.0)|)))
  y

/-- 1.7 Griewank: indexed loop over exactly ii = 1..dimensions. -/
noncomputable def griewankObj (dimensions : ℕ) (x : List ℝ) : ℝ :=
  let d := dimensions
  ((List.range d).map (fun k : ℕ => nth0 x k ^ 2 / 4000.0)).sum -
    ((List.range d).map (fun k : ℕ => Real.cos (nth0 x k / Real.sqrt ((k : ℝ) + 1)))).prod + 1

/-- 1.8 Holder Table. -/
noncomputable def holderTableObj (x : List ℝ) : ℝ :=
  let x1 := nth0 x 0
  let x2 := nth0 x 1
  let fact1 := Real.sin x1 * Real.cos x2
  let fact2 := Real.exp (|1.0 - Real.sqrt (x1 ^ 2 + x2 ^ 2) / Real.pi|)
  let f := -|fact1 * fact2|
  f

/-- 1.10 Levy.  The source builds w from exactly the first two components
(for ii in range(2)), sums for ii in range(1), and reads w[d-1]; with the
ℕ-subtraction d - 1 this matches the source for every d ≥ 1 (at d = 0 the
source would take the last element by negative indexing, a pathological call
no claim exercises; at d ≥ 3 the source raises IndexError on w[d-1] while
the embedding returns the default 0). -/
noncomputable def levyObj (dimensions : ℕ) (x : List ℝ) : ℝ :=
  let d := dimensions
  let w : List ℝ := (List.range 2).map (fun i : ℕ => 1.0 + (nth0 x i - 1.0) / 4.0)
  let term1 := Real.sin (Real.pi * nth0 w 0) ^ 2
  let term3 := (nth0 w (d - 1) - 1.0) ^ 2 *
    (1.0 + Real.sin (2 * Real.pi * nth0 w (d - 1)) ^ 2)
  let total := ((List.range 1).map (fun i : ℕ =>
    (nth0 w i - 1.0) ^ 2 * (1.0 + 10.0 * Real.sin (Real.pi * nth0 w i + 1) ^ 2))).sum
  term1 + total + term3

/-- 1.11 Levy N. 13. -/
noncomputable def levy13Obj (x : List ℝ) : ℝ :=
  let x1 := nth0 x 0
  let x2 := nth0 x 1
  Real.sin (3 * Real.pi * x1) ^ 2 +
    (x1 - 1.0) ^ 2 * (1 + Real.sin (3 * Real.pi * x2) ^ 2) +
    (x2 - 1.0) ^ 2 * (1 + Real.sin (2 * Real.pi * x2) ^ 2)

/-- 1.12 Rastrigin.  The loop for xi in x iterates over every component of
the supplied point; only the additive term 10*d uses dimensions. -/
noncomputable def rastriginObj (dimensions : ℕ) (x : List ℝ) : ℝ :=
  let d : ℝ := dimensions
  10.0 * d + (x.map (fun xi => xi ^ 2 - 10.0 * Real.cos (2.0 * Real.pi * xi))).sum

/-- 1.13 Schaffer N. 2. -/
noncomputable def schaffer2Obj (x : List ℝ) : ℝ :=
  let x1 := nth0 x 0
  let x2 := nth0 x 1
  0.5 + (Real.sin (x1 ^ 2 - x2 ^ 2) ^ 2 - 0.5) / (1.0 + 0.001 * (x1 ^ 2 + x2 ^ 2)) ^ 2

/-- 1.14 Schaffer N. 4. -/
noncomputable def schaffer4Obj (x : List ℝ) : ℝ :=
  let x1 := nth0 x 0
  let x2 := nth0 x 1
  0.5 + (Real.cos (Real.sin (|x1 ^ 2 - x2 ^ 2|)) - 0.5) /
    (1.0 + 0.001 * (x1 ^ 2 + x2 ^ 2)) ^ 2

/-- 1.15 Schwefel: indexed loop over exactly ii = 0..dimensions-1. -/
noncomputable def schwefelObj (dimensions : ℕ) (x : List ℝ) : ℝ :=
  let d : ℝ := dimensions
  418.9829 * d -
    ((List.range dimensions).map (fun k : ℕ => nth0 x k * Real.sin (Real.sqrt (|nth0 x k|)))).sum

/-- 1.16 Shubert. -/
noncomputable def shubertObj (x : List ℝ) : ℝ :=
  let x1 := nth0 x 0
  let x2 := nth0 x 1
  (((List.range 5).map (fun k : ℕ => ((k : ℝ) + 1) * Real.cos (((k : ℝ) + 2) * x1 + ((k : ℝ) + 1)))).sum) *
    (((List.range 5).map (fun k : ℕ => ((k : ℝ) + 1) * Real.cos (((k : ℝ) + 2) * x2 + ((k : ℝ) + 1)))).sum)

/-- 2.1 Bohachevsky. -/
noncomputable def bohachevskyObj (x : List ℝ) : ℝ :=
  let x1 := nth0 x 0
  let x2 := nth0 x 1
  x1 ^ 2 + 2 * x2 ^ 2 - 0.3 * Real.cos (3 * Real.pi * x1) -
    0.4 * Real.cos (4 * Real.pi * x2) + 0.7

/-- 2.2 Perm 0, d, β with b = 10. -/
noncomputable def permZeroObj (dimensions : ℕ) (x : List ℝ) : ℝ :=
  let d := dimensions
  ((List.range d).map (fun i : ℕ =>
    (((List.range d).map (fun j : ℕ =>
      (((j : ℝ) + 1) + 10) * (nth0 x j ^ (i + 1) - (1.0 / ((j : ℝ) + 1)) ^ (i + 1)))).sum) ^ 2)).sum

/-- 2.3 Rotated Hyper-Ellipsoid. -/
noncomputable def rotHyperObj (dimensions : ℕ) (x : List ℝ) : ℝ :=
  ((List.range dimensions).map (fun i : ℕ =>
    ((List.range (i + 1)).map (fun j : ℕ => nth0 x j ^ 2)).sum)).sum

/-- 2.4 Sphere Modified: the loop bound d = 6 is hard-coded in the body. -/
noncomputable def sphereModObj (x : List ℝ) : ℝ :=
  (((List.range 6).map (fun k : ℕ => nth0 x k ^ 2 * (2 : ℝ) ^ (k + 1))).sum - 1745.0) / 899.0

/-- 2.5 Sum of Different Powers: the exponent ii+1.0 is a real power of the
nonnegative base abs xi. -/
noncomputable def sumDiffPowObj (dimensions : ℕ) (x : List ℝ) : ℝ :=
  ((List.range dimensions).map (fun k : ℕ => |nth0 x k| ^ ((k : ℝ) + 2))).sum

/-- 2.6 Sum Squares. -/
noncomputable def sumSquaresObj (dimensions : ℕ) (x : List ℝ) : ℝ :=
  ((List.range dimensions).map (fun k : ℕ => ((k : ℝ) + 1) * nth0 x k ^ 2)).sum

/-- 2.7 Trid: the loops for ii in range(2, d+1) become maps over
List.range (d-1) with ii = k+2. -/
noncomputable def tridObj (dimensions : ℕ) (x : List ℝ) : ℝ :=
  let d := dimensions
  let sum1 := (nth0 x 0 - 1.0) ^ 2 +
    ((List.range (d - 1)).map (fun k : ℕ => (nth0 x (k + 1) - 1.0) ^ 2)).sum
  let sum2 := ((List.range (d - 1)).map (fun k : ℕ => nth0 x (k + 1) * nth0 x k)).sum
  sum1 - sum2

/-- 3.1 Booth. -/
noncomputable def boothObj (x : List ℝ) : ℝ :=
  let x1 := nth0 x 0
  let x2 := nth0 x 1
  (x1 + 2.0 * x2 - 7) ^ 2 + (2.0 * x1 + x2 - 5) ^ 2

/-- 3.2 Matyas. -/
noncomputable def matyasObj (x : List ℝ) : ℝ :=
  let x1 := nth0 x 0
  let x2 := nth0 x 1
  0.26 * (x1 ^ 2 + x2 ^ 2) - 0.48 * x1 * x2

/-- 3.3 McCormick. -/
noncomputable def mccormickObj (x : List ℝ) : ℝ :=
  let x1 := nth0 x 0
  let x2 := nth0 x 1
  Real.sin (x1 + x2) + (x1 - x2) ^ 2 - 1.5 * x1 + 2.5 * x2 + 1.0

/-- 3.5 Zakharov. -/
noncomputable def zakharovObj (dimensions : ℕ) (x : List ℝ) : ℝ :=
  let sum1 := ((List.range dimensions).map (fun k : ℕ => nth0 x k ^ 2)).sum
  let sum2 := ((List.range dimensions).map (fun k : ℕ => 0.5 * ((k : ℝ) + 1) * nth0 x k)).sum
  sum1 + sum2 ^ 2 + sum2 ^ 4

/-- 4.1 Three-Hump Camel. -/
noncomputable def threeHumpObj (x : List ℝ) : ℝ :=
  let x1 := nth0 x 0
  let x2 := nth0 x 1
  2 * x1 ^ 2 - 1.05 * x1 ^ 4 + x1 ^ 6 / 6 + x1 * x2 + x2 ^ 2

/-- 4.2 Six-Hump Camel. -/
noncomputable def sixHumpObj (x : List ℝ) : ℝ :=
  (4.0 - 2.1 * nth0 x 0 ^ 2 + nth0 x 0 ^ 4 / 3.0) * nth0 x 0 ^ 2 +
    nth0 x 0 * nth0 x 1 + (-4.0 + 4.0 * nth0 x 1 ^ 2) * nth0 x 1 ^ 2

/-- 4.3 Dixon-Price. -/
noncomputable def dixonPriceObj (dimensions : ℕ) (x : List ℝ) : ℝ :=
  let d := dimensions
  (nth0 x 0 - 1) ^ 2 +
    ((List.range (d - 1)).map (fun k : ℕ =>
      ((k : ℝ) + 2) * (2 * nth0 x (k + 1) ^ 2 - nth0 x k) ^ 2)).sum

/-- 4.4 Rosenbrock: loop for ii in range(1, d) over d-1 consecutive pairs. -/
noncomputable def rosenbrockObj (dimensions : ℕ) (x : List ℝ) : ℝ :=
  ((List.range (dimensions - 1)).map (fun k : ℕ =>
    100.0 * (nth0 x (k + 1) - nth0 x k ^ 2) ^ 2 + (nth0 x k - 1.0) ^ 2)).sum

/-- 5.2 Easom. -/
noncomputable def easomObj (x : List ℝ) : ℝ :=
  let x1 := nth0 x 0
  let x2 := nth0 x 1
  (-Real.cos x1 * Real.cos x2) * Real.exp (-(x1 - Real.pi) ^ 2 - (x2 - Real.pi) ^ 2)

/-- 5.3 Michalewicz with m = 10. -/
noncomputable def michalewiczObj (dimensions : ℕ) (x : List ℝ) : ℝ :=
  -((List.range dimensions).map (fun k : ℕ =>
    Real.sin (nth0 x k) * Real.sin (((k : ℝ) + 1) * nth0 x k ^ 2 / Real.pi) ^ (2 * 10))).sum

/-- 6.1 Beale. -/
noncomputable def bealeObj (x : List ℝ) : ℝ :=
  let x1 := nth0 x 0
  let x2 := nth0 x 1
  (1.5 - x1 + x1 * x2) ^ 2 + (2.25 - x1 + x1 * x2 ^ 2) ^ 2 +
    (2.625 - x1 + x1 * x2 ^ 3) ^ 2

/-- 6.2 Branin with the recommended constants. -/
noncomputable def braninObj (x : List ℝ) : ℝ :=
  let x1 := nth0 x 0
  let x2 := nth0 x 1
  let t := 1.0 / (8.0 * Real.pi)
  let s := 10.0
  let r := 6.0
  let c := 5.0 / Real.pi
  let b := 5.1 / (4.0 * Real.pi ^ 2)
  let a := 1.0
  a * (x2 - b * x1 ^ 2 + c * x1 - r) ^ 2 + s * (1 - t) * Real.cos x1 + s

/-- 6.3 Colville. -/
noncomputable def colvilleObj (x : List ℝ) : ℝ :=
  let x1 := nth0 x 0
  let x2 := nth0 x 1
  let x3 := nth0 x 2
  let x4 := nth0 x 3
  100 * (x1 ^ 2 - x2) ^ 2 + (x1 - 1) ^ 2 + (x3 - 1) ^ 2 +
    90.0 * (x3 ^ 2 - x4) ^ 2 + 10.1 * ((x2 - 1) ^ 2 + (x4 - 1) ^ 2) +
    19.8 * (x2 - 1) * (x4 - 1)

/-- 6.5 Goldstein-Price. -/
noncomputable def goldsteinObj (x : List ℝ) : ℝ :=
  let x1 := nth0 x 0
  let x2 := nth0 x 1
  let fact1 := 1 + (x1 + x2 + 1) ^ 2 *
    (19 - 14 * x1 + 3 * x1 ^ 2 - 14 * x2 + 6 * x1 * x2 + 3 * x2 ^ 2)
  let fact2 := 30 + (2 * x1 - 3 * x2) ^ 2 *
    (18 - 32 * x1 + 12 * x1 ^ 2 + 48 * x2 - 36 * x1 * x2 + 27 * x2 ^ 2)
  fact1 * fact2

/-- 6.6 Hartmann 3-D coefficient vector alpha. -/
noncomputable def h3alpha : List ℝ := [1.0, 1.2, 3.0, 3.2]

/-- 6.6 Hartmann 3-D matrix A. -/
noncomputable def h3A : List (List ℝ) :=
  [[3.0, 10, 30], [0.1, 10, 35], [3.0, 10, 30], [0.1, 10, 35]]

/-- 6.6 Hartmann 3-D matrix P, scaled by the float power 10.0**(-4.0). -/
noncomputable def h3P : List (List ℝ) :=
  [[3689, 1170, 2673], [4699, 4387, 7470], [1091, 8732, 5547],
    [381, 5743, 8828]].map (fun row => row.map (fun v => (10.0 : ℝ) ^ (-(4.0 : ℝ)) * v))

/-- 6.6 Hartmann 3-D. -/
noncomputable def hartmann3Obj (x : List ℝ) : ℝ :=
  -((List.range 4).map (fun i : ℕ =>
    nth0 h3alpha i * Real.exp
      (-(((List.range 3).map (fun j : ℕ =>
        nth2 h3A i j * (nth0 x j - nth2 h3P i j) ^ 2)).sum)))).sum

/-- The scale factor the 6.8 Hartmann 6-D branch applies to its matrix P.
The source writes 10^(-4), and on Python integers the caret is bitwise XOR,
so the value is -10, not the intended 10**(-4) = 0.0001 that the Hartmann
3-D branch computes with 10.0**(-4.0). -/
def h6scale : ℤ := Int.xor 10 (-4)

/-- 6.8 Hartmann 6-D coefficient vector alpha. -/
noncomputable def h6alpha : List ℝ := [1.0, 1.2, 3.0, 3.2]

/-- 6.8 Hartmann 6-D matrix A. -/
noncomputable def h6A : List (List ℝ) :=
  [[10, 3, 17, 3.5, 1.7, 8], [0.05, 10, 17, 0.1, 8, 14],
    [3, 3.5, 1.7, 10, 17, 8], [17, 8, 0.05, 10, 0.1, 14]]

/-- 6.8 Hartmann 6-D matrix P = 10^(-4) * (integer matrix): each entry is
scaled by h6scale = -10 (see h6scale). -/
noncomputable def h6P : List (List ℝ) :=
  [[1312, 1696, 5569, 124, 8283, 5886], [2329, 4135, 8307, 3736, 1004, 9991],
    [2348, 1451, 3522, 2883, 3047, 6650],
    [4047, 8828, 8732, 5743, 1091, 381]].map
      (fun row => row.map (fun v => ((h6scale : ℤ) : ℝ) * v))

/-- 6.8 Hartmann 6-D inner sum for row i. -/
noncomputable def h6inner (x : List ℝ) (i : ℕ) : ℝ :=
  ((List.range 6).map (fun j : ℕ => nth2 h6A i j * (nth0 x j - nth2 h6P i j) ^ 2)).sum

/-- 6.8 Hartmann 6-D. -/
noncomputable def hartmann6Obj (x : List ℝ) : ℝ :=
  -(2.58 + ((List.range 4).map (fun i : ℕ => nth0 h6alpha i * Real.exp (-h6inner x i))).sum) / 1.94

/-- 6.9 Perm d, β with b = 0.5. -/
noncomputable def permDBObj (dimensions : ℕ) (x : List ℝ) : ℝ :=
  let d := dimensions
  ((List.range d).map (fun i : ℕ =>
    (((List.range d).map (fun j : ℕ =>
      (((j : ℝ) + 1) ^ (i + 1) + 0.5) * ((nth0 x j / ((j : ℝ) + 1)) ^ (i + 1) - 1.0))).sum) ^ 2)).sum

/-- 6.11 Shekel coefficient vector b = 0.1 * [1, 2, 2, 4, 4, 6, 3, 7, 5, 5]. -/
noncomputable def shekelB : List ℝ :=
  [1, 2, 2, 4, 4, 6, 3, 7, 5, 5].map (fun v => 0.1 * v)

/-- 6.11 Shekel matrix C (4 rows, 10 columns). -/
noncomputable def shekelC : List (List ℝ) :=
  [[4.0, 1.0, 8.0, 6.0, 3.0, 2.0, 5.0, 8.0, 6.0, 7.0],
   [4.0, 1.0, 8.0, 6.0, 7.0, 9.0, 3.0, 1.0, 2.0, 3.6],
   [4.0, 1.0, 8.0, 6.0, 3.0, 2.0, 5.0, 8.0, 6.0, 7.0],
   [4.0, 1.0, 8.0, 6.0, 7.0, 9.0, 3.0, 1.0, 2.0, 3.6]]

/-- 6.11 Shekel with m = 10. -/
noncomputable def shekelObj (x : List ℝ) : ℝ :=
  -((List.range 10).map (fun i : ℕ =>
    1 / ((((List.range 4).map (fun j : ℕ => (nth0 x j - nth2 shekelC j i) ^ 2)).sum) +
      nth0 shekelB i))).sum

/-- 6.12 Styblinski-Tang. -/
noncomputable def styblinskiObj (dimensions : ℕ) (x : List ℝ) : ℝ :=
  (((List.range dimensions).map (fun k : ℕ =>
    nth0 x k ^ 4 - 16 * nth0 x k ^ 2 + 5 * nth0 x k)).sum) / 2.0

/-! ### Descriptors, one per implemented branch.  Bounds built in the source
with np.ones(dimensions)*c become List.replicate dimensions c; entries whose
branch body never reads dimensions take no parameter. -/

noncomputable def ackleyEntry (dimensions : ℕ) : NonCons where
  obj := ackleyObj dimensions
  cns := none
  lb := [-39.0, -39.0]
  ub := [40.0, 40.0]
  xopt := [[0.0, 0.0]]
  fopt := 0.0

noncomputable def bukinEntry : NonCons where
  obj := bukinObj
  cns := none
  lb := [-15, -3]
  ub := [-5, 3]
  xopt := [[-10, 1]]
  fopt := 0.0

noncomputable def crossInTrayEntry : NonCons where
  obj := crossInTrayObj
  cns := none
  lb := [-10, -10]
  ub := [10, 10]
  xopt := [[1.3491, -1.3491], [1.3491, 1.3491], [-1.3491, 1.3491], [-1.3491, -1.3491]]
  fopt := -2.06261

noncomputable def dropWaveEntry : NonCons where
  obj := dropWaveObj
  cns := none
  lb := [-1.9, -1.9]
  ub := [2, 2]
  xopt := [[0, 0]]
  fopt := -1.0

noncomputable def eggholderEntry : NonCons where
  obj := eggholderObj
  cns := none
  lb := [-600, -600]
  ub := [600, 600]
  xopt := [[512, 404.2319]]
  fopt := -959.6407

noncomputable def griewankEntry (dimensions : ℕ) : NonCons where
  obj := griewankObj dimensions
  cns := none
  lb := [-9, -9]
  ub := [10, 10]
  xopt := [[0, 0]]
  fopt := 0.0

noncomputable def holderTableEntry : NonCons where
  obj := holderTableObj
  cns := none
  lb := [-10, -10]
  ub := [10, 10]
  xopt := [[8.05502, 9.66459], [8.05502, -9.66459], [-8.05502, 9.66459], [-8.05502, -9.66459]]
  fopt := -19.2085

noncomputable def levyEntry (dimensions : ℕ) : NonCons where
  obj := levyObj dimensions
  cns := none
  lb := [-9, -9]
  ub := [10, 10]
  xopt := [[1, 1]]
  fopt := 0.0

noncomputable def levy13Entry : NonCons where
  obj := levy13Obj
  cns := none
  lb := [-10, -10]
  ub := [10, 10]
  xopt := [[1, 1]]
  fopt := 0.0

noncomputable def rastriginEntry (dimensions : ℕ) : NonCons where
  obj := rastriginObj dimensions
  cns := none
  lb := [-4, -4]
  ub := [5, 5]
  xopt := [[0, 0]]
  fopt := 0.0

noncomputable def schaffer2Entry : NonCons where
  obj := schaffer2Obj
  cns := none
  lb := [-4, -4]
  ub := [5, 5]
  xopt := [[0, 0]]
  fopt := 0.0

noncomputable def schaffer4Entry : NonCons where
  obj := schaffer4Obj
  cns := none
  lb := [-50, -50]
  ub := [50, 50]
  xopt := [[0, 0]]
  fopt := 0.0

noncomputable def schwefelEntry (dimensions : ℕ) : NonCons where
  obj := schwefelObj dimensions
  cns := none
  lb := [-500, -500]
  ub := [500, 500]
  xopt := [[420.9687, 420.9687]]
  fopt := 0

noncomputable def shubertEntry : NonCons where
  obj := shubertObj
  cns := none
  lb := [-10, -10]
  ub := [10, 10]
  xopt := [[-1.425128, -0.800273]]
  fopt := -186.7309

noncomputable def bohachevskyEntry : NonCons where
  obj := bohachevskyObj
  cns := none
  lb := [-99.0, -99.0]
  ub := [100.0, 100.0]
  xopt := [[0.0, 0.0]]
  fopt := 0.0

noncomputable def permZeroEntry (dimensions : ℕ) : NonCons where
  obj := permZeroObj dimensions
  cns := none
  lb := List.replicate dimensions (-2.0)
  ub := List.replicate dimensions 2.0
  xopt := [[1, 1.0 / 2.0]]
  fopt := 0.0

noncomputable def rotHyperEntry (dimensions : ℕ) : NonCons where
  obj := rotHyperObj dimensions
  cns := none
  lb := List.replicate dimensions (-59.0)
  ub := List.replicate dimensions 60.0
  xopt := [[0.0, 0.0]]
  fopt := 0.0

noncomputable def sphereModEntry : NonCons where
  obj := sphereModObj
  cns := none
  lb := List.replicate 6 (-0.9)
  ub := List.replicate 6 1.0
  xopt := [[0.0, 0.0, 0.0, 0.0, 0.0, 0.0]]
  fopt := 0.0

noncomputable def sumDiffPowEntry (dimensions : ℕ) : NonCons where
  obj := sumDiffPowObj dimensions
  cns := none
  lb := List.replicate dimensions (-0.9)
  ub := List.replicate dimensions 1.0
  xopt := [[0.0, 0.0]]
  fopt := 0.0

noncomputable def sumSquaresEntry (dimensions : ℕ) : NonCons where
  obj := sumSquaresObj dimensions
  cns := none
  lb := List.replicate dimensions (-9.0)
  ub := List.replicate dimensions 10.0
  xopt := [[0.0, 0.0]]
  fopt := 0.0

noncomputable def tridEntry (dimensions : ℕ) : NonCons where
  obj := tridObj dimensions
  cns := none
  lb := List.replicate dimensions (-0.9 * (dimensions : ℝ) ^ 2)
  ub := List.replicate dimensions ((dimensions : ℝ) ^ 2)
  xopt := [[1 * ((dimensions : ℝ) + 1 - 1), 2 * ((dimensions : ℝ) + 1 - 2)]]
  fopt := -(dimensions : ℝ) * ((dimensions : ℝ) + 4.0) * ((dimensions : ℝ) - 1.0) / 6.0

noncomputable def boothEntry : NonCons where
  obj := boothObj
  cns := none
  lb := [-10.0, -10.0]
  ub := [10.0, 10.0]
  xopt := [[1.0, 3.0]]
  fopt := 0.0

noncomputable def matyasEntry : NonCons where
  obj := matyasObj
  cns := none
  lb := [-9.0, -9.0]
  ub := [10.0, 10.0]
  xopt := [[0.0, 0.0]]
  fopt := 0.0

noncomputable def mccormickEntry : NonCons where
  obj := mccormickObj
  cns := none
  lb := [-1.5, -3.0]
  ub := [4.0, 4.0]
  xopt := [[-0.54719, -1.54719]]
  fopt := -1.9133

noncomputable def zakharovEntry (dimensions : ℕ) : NonCons where
  obj := zakharovObj dimensions
  cns := none
  lb := List.replicate dimensions (-5.0)
  ub := List.replicate dimensions 10.0
  xopt := [[0.0, 0.0]]
  fopt := 0.0

noncomputable def threeHumpEntry : NonCons where
  obj := threeHumpObj
  cns := none
  lb := [-4.0, -4.0]
  ub := [5.0, 5.0]
  xopt := [[0.0, 0.0]]
  fopt := 0.0

noncomputable def sixHumpEntry : NonCons where
  obj := sixHumpObj
  cns := none
  lb := [-3, -2]
  ub := [3, 2]
  xopt := [[0.0898, -0.7126], [-0.0898, 0.7126]]
  fopt := -1.0316

noncomputable def dixonPriceEntry (dimensions : ℕ) : NonCons where
  obj := dixonPriceObj dimensions
  cns := none
  lb := List.replicate dimensions (-9.0)
  ub := List.replicate dimensions 10.0
  xopt := [[(2.0 : ℝ) ^ (-(((2 : ℝ) ^ (1 : ℕ) - 2) / (2 : ℝ) ^ (1 : ℕ))),
    (2.0 : ℝ) ^ (-(((2 : ℝ) ^ (2 : ℕ) - 2) / (2 : ℝ) ^ (2 : ℕ)))]]
  fopt := 0.0

noncomputable def rosenbrockEntry (dimensions : ℕ) : NonCons where
  obj := rosenbrockObj dimensions
  cns := none
  lb := List.replicate dimensions (-5.0)
  ub := List.replicate dimensions 10.0
  xopt := [List.replicate dimensions 1.0]
  fopt := 0.0

noncomputable def easomEntry : NonCons where
  obj := easomObj
  cns := none
  lb := [-100.0, -100.0]
  ub := [100.0, 100.0]
  xopt := [[Real.pi, Real.pi]]
  fopt := -1.0

noncomputable def michalewiczEntry (dimensions : ℕ) : NonCons where
  obj := michalewiczObj dimensions
  cns := none
  lb := List.replicate dimensions 0.0
  ub := List.replicate dimensions Real.pi
  xopt := [[2.20, 1.57]]
  fopt := -1.8013

noncomputable def bealeEntry : NonCons where
  obj := bealeObj
  cns := none
  lb := [-4.5, -4.5]
  ub := [4.5, 4.5]
  xopt := [[3.0, 0.5]]
  fopt := 0.0

noncomputable def braninEntry : NonCons where
  obj := braninObj
  cns := none
  lb := [-5, 0]
  ub := [10, 15]
  xopt := [[-Real.pi, 12.275], [Real.pi, 2.275], [9.42478, 2.475]]
  fopt := 0.397887

noncomputable def colvilleEntry : NonCons where
  obj := colvilleObj
  cns := none
  lb := List.replicate 4 (-9.0)
  ub := List.replicate 4 10.0
  xopt := [[1.0, 1.0, 1.0, 1.0]]
  fopt := 0.0

noncomputable def goldsteinEntry : NonCons where
  obj := goldsteinObj
  cns := none
  lb := [-2, -2]
  ub := [2, 2]
  xopt := [[0, -1]]
  fopt := 3.0

noncomputable def hartmann3Entry : NonCons where
  obj := hartmann3Obj
  cns := none
  lb := [0, 0, 0]
  ub := [1, 1, 1]
  xopt := [[0.114614, 0.555649, 0.852547]]
  fopt := -3.86278

noncomputable def hartmann6Entry : NonCons where
  obj := hartmann6Obj
  cns := none
  lb := List.replicate 6 0.0
  ub := List.replicate 6 1.0
  xopt := [[0.20169, 0.150011, 0.476874, 0.275332, 0.311652, 0.6573]]
  fopt := -3.32237

noncomputable def permDBEntry (dimensions : ℕ) : NonCons where
  obj := permDBObj dimensions
  cns := none
  lb := List.replicate dimensions (-(dimensions : ℝ))
  ub := List.replicate dimensions (dimensions : ℝ)
  xopt := [[1, 2]]
  fopt := 0.0

noncomputable def shekelEntry : NonCons where
  obj := shekelObj
  cns := none
  lb := [0, 0, 0, 0]
  ub := [10, 10, 10, 10]
  xopt := [[4, 4, 4, 4]]
  fopt := -10.5364

noncomputable def styblinskiEntry (dimensions : ℕ) : NonCons where
  obj := styblinskiObj dimensions
  cns := none
  lb := List.replicate dimensions (-5.0)
  ub := List.replicate dimensions 5.0
  xopt := [List.replicate dimensions (-2.903534)]
  fopt := -39.16599 * (dimensions : ℝ)

/-! ### The constructor: the name-equality chain of NonCons.__init__.
Five branches raise TypeError("Problem solution was not ready.") before
assigning any descriptor field; the final else raises a bare string. -/

/-- NonCons.__init__(name, dimensions): either an error (raising branch) or
the descriptor the matching branch assembles. -/
noncomputable def nonConsInit (name : String) (dimensions : ℕ) : Except PyError NonCons :=
  if name = "1.1 Ackley Function" then .ok (ackleyEntry dimensions)
  else if name = "1.2 Bukin Function N. 6" then .ok bukinEntry
  else if name = "1.3 Cross-in-Tray Function" then .ok crossInTrayEntry
  else if name = "1.4 Drop-Wave Function" then .ok dropWaveEntry
  else if name = "1.5 Eggholder Function" then .ok eggholderEntry
  else if name = "1.6 Gramacy & Lee (2012) Function" then
    .error (.typeError "Problem solution was not ready.")
  else if name = "1.7 Griewank Function" then .ok (griewankEntry dimensions)
  else if name = "1.8 Holder Table Function" then .ok holderTableEntry
  else if name = "1.9 Langermann Function" then
    .error (.typeError "Problem solution was not ready.")
  else if name = "1.10 Levy Function" then .ok (levyEntry dimensions)
  else if name = "1.11 Levy Function N. 13" then .ok levy13Entry
  else if name = "1.12 Rastrigin Function" then .ok (rastriginEntry dimensions)
  else if name = "1.13 Schaffer Function N. 2" then .ok schaffer2Entry
  else if name = "1.14 Schaffer Function N. 4" then .ok schaffer4Entry
  else if name = "1.15 Schwefel Function" then .ok (schwefelEntry dimensions)
  else if name = "1.16 Shubert Function" then .ok shubertEntry
  else if name = "2.1 Bohachevsky Functions" then .ok bohachevskyEntry
  else if name = "2.2 Perm Function 0, d, β" then .ok (permZeroEntry dimensions)
  else if name = "2.3 Rotated Hyper-Ellipsoid Function" then .ok (rotHyperEntry dimensions)
  else if name = "2.4 Sphere Function Modified" then .ok sphereModEntry
  else if name = "2.5 Sum of Different Powers Function" then .ok (sumDiffPowEntry dimensions)
  else if name = "2.6 Sum Squares Function" then .ok (sumSquaresEntry dimensions)
  else if name = "2.7 Trid Function" then .ok (tridEntry dimensions)
  else if name = "3.1 Booth Function" then .ok boothEntry
  else if name = "3.2 Matyas Function" then .ok matyasEntry
  else if name = "3.3 McCormick Function" then .ok mccormickEntry
  else if name = "3.4 Power Sum Function" then
    .error (.typeError "Problem solution was not ready.")
  else if name = "3.5 Zakharov Function" then .ok (zakharovEntry dimensions)
  else if name = "4.1 Three-Hump Camel Function" then .ok threeHumpEntry
  else if name = "4.2 Six-Hump Camel Function" then .ok sixHumpEntry
  else if name = "4.3 Dixon-Price Function" then .ok (dixonPriceEntry dimensions)
  else if name = "4.4 Rosenbrock Function" then .ok (rosenbrockEntry dimensions)
  else if name = "5.2 Easom Function" then .ok easomEntry
  else if name = "5.3 Michalewicz Function" then .ok (michalewiczEntry dimensions)
  else if name = "6.1 Beale Function" then .ok bealeEntry
  else if name = "6.2 Branin Function" then .ok braninEntry
  else if name = "6.3 Colville Function" then .ok colvilleEntry
  else if name = "6.4 Forrester et al. (2008) Function" then
    .error (.typeError "Problem solution was not ready.")
  else if name = "6.5 Goldstein-Price Function" then .ok goldsteinEntry
  else if name = "6.6 Hartmann 3-D Function" then .ok hartmann3Entry
  else if name = "6.7 Hartmann 4-D Function" then
    .error (.typeError "Problem solution was not ready.")
  else if name = "6.8 Hartmann 6-D Function" then .ok hartmann6Entry
  else if name = "6.9 Perm Function d, β" then .ok (permDBEntry dimensions)
  else if name = "6.11 Shekel Function" then .ok shekelEntry
  else if name = "6.12 Styblinski-Tang Function" then .ok (styblinskiEntry dimensions)
  else .error (.badRaise "Unkown problem name.")

/-- NonCons(name) with the dimensions argument left at its default 2. -/
noncomputable def nonConsInitD (name : String) : Except PyError NonCons :=
  nonConsInit name 2

/-! ### A first-match view of the branch chain.  The nested if/elif chain of
nonConsInit is definitionally the first-match traversal of the ordered list
of its branches, which gives an induction principle over the chain. -/

/-- First-match traversal: the value of the first pair whose key equals name,
and the final else result when no key matches. -/
noncomputable def chainLookup : List (String × Except PyError NonCons) → String → Except PyError NonCons
  | [], _ => .error (.badRaise "Unkown problem name.")
  | (k, v) :: rest, name => if name = k then v else chainLookup rest name

/-- The ordered branch list of NonCons.__init__. -/
noncomputable def branches (d : ℕ) : List (String × Except PyError NonCons) :=
  [("1.1 Ackley Function", .ok (ackleyEntry d)),
   ("1.2 Bukin Function N. 6", .ok bukinEntry),
   ("1.3 Cross-in-Tray Function", .ok crossInTrayEntry),
   ("1.4 Drop-Wave Function", .ok dropWaveEntry),
   ("1.5 Eggholder Function", .ok eggholderEntry),
   ("1.6 Gramacy & Lee (2012) Function", .error (.typeError "Problem solution was not ready.")),
   ("1.7 Griewank Function", .ok (griewankEntry d)),
   ("1.8 Holder Table Function", .ok holderTableEntry),
   ("1.9 Langermann Function", .error (.typeError "Problem solution was not ready.")),
   ("1.10 Levy Function", .ok (levyEntry d)),
   ("1.11 Levy Function N. 13", .ok levy13Entry),
   ("1.12 Rastrigin Function", .ok (rastriginEntry d)),
   ("1.13 Schaffer Function N. 2", .ok schaffer2Entry),
   ("1.14 Schaffer Function N. 4", .ok schaffer4Entry),
   ("1.15 Schwefel Function", .ok (schwefelEntry d)),
   ("1.16 Shubert Function", .ok shubertEntry),
   ("2.1 Bohachevsky Functions", .ok bohachevskyEntry),
   ("2.2 Perm Function 0, d, β", .ok (permZeroEntry d)),
   ("2.3 Rotated Hyper-Ellipsoid Function", .ok (rotHyperEntry d)),
   ("2.4 Sphere Function Modified", .ok sphereModEntry),
   ("2.5 Sum of Different Powers Function", .ok (sumDiffPowEntry d)),
   ("2.6 Sum Squares Function", .ok (sumSquaresEntry d)),
   ("2.7 Trid Function", .ok (tridEntry d)),
   ("3.1 Booth Function", .ok boothEntry),
   ("3.2 Matyas Function", .ok matyasEntry),
   ("3.3 McCormick Function", .ok mccormickEntry),
   ("3.4 Power Sum Function", .error (.typeError "Problem solution was not ready.")),
   ("3.5 Zakharov Function", .ok (zakharovEntry d)),
   ("4.1 Three-Hump Camel Function", .ok threeHumpEntry),
   ("4.2 Six-Hump Camel Function", .ok sixHumpEntry),
   ("4.3 Dixon-Price Function", .ok (dixonPriceEntry d)),
   ("4.4 Rosenbrock Function", .ok (rosenbrockEntry d)),
   ("5.2 Easom Function", .ok easomEntry),
   ("5.3 Michalewicz Function", .ok (michalewiczEntry d)),
   ("6.1 Beale Function", .ok bealeEntry),
   ("6.2 Branin Function", .ok braninEntry),
   ("6.3 Colville Function", .ok colvilleEntry),
   ("6.4 Forrester et al. (2008) Function", .error (.typeError "Problem solution was not ready.")),
   ("6.5 Goldstein-Price Function", .ok goldsteinEntry),
   ("6.6 Hartmann 3-D Function", .ok hartmann3Entry),
   ("6.7 Hartmann 4-D Function", .error (.typeError "Problem solution was not ready.")),
   ("6.8 Hartmann 6-D Function", .ok hartmann6Entry),
   ("6.9 Perm Function d, β", .ok (permDBEntry d)),
   ("6.11 Shekel Function", .ok shekelEntry),
   ("6.12 Styblinski-Tang Function", .ok (styblinskiEntry d))]

theorem nonConsInit_eq_chainLookup (name : String) (d : ℕ) :
    nonConsInit name d = chainLookup (branches d) name := rfl

/-- The descriptors the 40 implemented branches can return. -/
noncomputable def entriesOf (d : ℕ) : List NonCons :=
  [ackleyEntry d, bukinEntry, crossInTrayEntry, dropWaveEntry, eggholderEntry,
   griewankEntry d, holderTableEntry, levyEntry d, levy13Entry, rastriginEntry d,
   schaffer2Entry, schaffer4Entry, schwefelEntry d, shubertEntry, bohachevskyEntry,
   permZeroEntry d, rotHyperEntry d, sphereModEntry, sumDiffPowEntry d,
   sumSquaresEntry d, tridEntry d, boothEntry, matyasEntry, mccormickEntry,
   zakharovEntry d, threeHumpEntry, sixHumpEntry, dixonPriceEntry d,
   rosenbrockEntry d, easomEntry, michalewiczEntry d, bealeEntry, braninEntry,
   colvilleEntry, goldsteinEntry, hartmann3Entry, hartmann6Entry, permDBEntry d,
   shekelEntry, styblinskiEntry d]

theorem chainLookup_mem_or (l : List (String × Except PyError NonCons)) (name : String)
    (r : Except PyError NonCons) (h : chainLookup l name = r) :
    (name, r) ∈ l ∨ r = .error (.badRaise "Unkown problem name.") := by
  induction l with
  | nil => exact Or.inr h.symm
  | cons kv rest ih =>
    obtain ⟨k, v⟩ := kv
    rw [chainLookup] at h
    by_cases hk : name = k
    · rw [if_pos hk] at h
      exact Or.inl (by rw [hk, ← h]; exact List.mem_cons_self _ _)
    · rw [if_neg hk] at h
      rcases ih h with hm | hb
      · exact Or.inl (List.mem_cons_of_mem _ hm)
      · exact Or.inr hb

theorem chainLookup_not_mem (l : List (String × Except PyError NonCons)) (name : String)
    (h : ∀ kv ∈ l, name ≠ kv.1) :
    chainLookup l name = .error (.badRaise "Unkown problem name.") := by
  induction l with
  | nil => rfl
  | cons kv rest ih =>
    obtain ⟨k, v⟩ := kv
    rw [chainLookup, if_neg (h (k, v) (List.mem_cons_self _ _)), ih]
    intro kv2 hkv2
    exact h kv2 (List.mem_cons_of_mem _ hkv2)

theorem branches_ok_entries (d : ℕ) :
    ∀ kv ∈ branches d, ∀ e : NonCons, kv.2 = .ok e → e ∈ entriesOf d := by
  intro kv hkv
  fin_cases hkv <;> intro e he <;>
    first
      | exact Except.noConfusion he
      | (injection he with he; subst he; simp [entriesOf])

theorem nonConsInit_ok_mem (name : String) (d : ℕ) (e : NonCons)
    (h : nonConsInit name d = .ok e) : e ∈ entriesOf d := by
  rw [nonConsInit_eq_chainLookup] at h
  rcases chainLookup_mem_or _ _ _ h with hm | hb
  · exact branches_ok_entries d _ hm e rfl
  · exact Except.noConfusion hb

/-! ### Shared helper lemmas -/

theorem forall₂_replicate_of {r : ℝ → ℝ → Prop} {a b : ℝ} (h : r a b) (d : ℕ) :
    List.Forall₂ r (List.replicate d a) (List.replicate d b) := by
  induction d with
  | zero => exact List.Forall₂.nil
  | succ n ih => exact List.Forall₂.cons h ih

theorem nth0_take (x : List ℝ) : ∀ n i : ℕ, i < n → nth0 (x.take n) i = nth0 x i := by
  induction x with
  | nil => intro n i _; simp [nth0]
  | cons a t ih =>
    intro n i h
    cases n with
    | zero => omega
    | succ m =>
      cases i with
      | zero => simp [nth0]
      | succ j => simpa [nth0] using ih m j (by omega)

/-! ### Claim theorems -/

/-- Claim C7: looking up "1.12 Rastrigin Function" with the dimensionality
argument omitted (defaulting to 2) returns lower bounds [-4,-4], upper bounds
[5,5], the single known optimum location [0,0] with known optimum value 0.0,
and its evaluator returns 0.0 at [0,0] and 2.0 at [1,1]. -/
theorem c7_rastrigin_default_scenario :
    nonConsInitD "1.12 Rastrigin Function" = .ok (rastriginEntry 2) ∧
    (rastriginEntry 2).lb = [-4, -4] ∧ (rastriginEntry 2).ub = [5, 5] ∧
    (rastriginEntry 2).xopt = [[0, 0]] ∧ (rastriginEntry 2).fopt = 0 ∧
    (rastriginEntry 2).obj [0, 0] = 0 ∧ (rastriginEntry 2).obj [1, 1] = 2 := by
  refine ⟨rfl, rfl, rfl, rfl, by norm_num [rastriginEntry], ?_, ?_⟩
  · show rastriginObj 2 [0, 0] = 0
    simp [rastriginObj]
    norm_num
  · show rastriginObj 2 [1, 1] = 2
    simp [rastriginObj, Real.cos_two_pi]
    norm_num

/-- Claim C8: catalog lookup and evaluation are deterministic and stateless:
the embedding of NonCons.__init__ is a pure function of (name, dimensions)
(the source reads nothing but its arguments and writes nothing but the fresh
instance), so two lookups with the same arguments produce descriptors with
the same bounds, optima, optimum value, constraint field, and
pointwise-equal objective evaluators. -/
theorem c8_lookup_deterministic :
    ∀ (name : String) (d : ℕ) (e₁ e₂ : NonCons),
      nonConsInit name d = .ok e₁ → nonConsInit name d = .ok e₂ →
      e₁.lb = e₂.lb ∧ e₁.ub = e₂.ub ∧ e₁.xopt = e₂.xopt ∧ e₁.fopt = e₂.fopt ∧
      e₁.cns = e₂.cns ∧ ∀ x : List ℝ, e₁.obj x = e₂.obj x := by
  intro name d e₁ e₂ h₁ h₂
  rw [h₁] at h₂
  injection h₂ with h₂
  subst h₂
  exact ⟨rfl, rfl, rfl, rfl, rfl, fun _ => rfl⟩

/-- Witness for C8 at the Rastrigin entry with the default dimensionality. -/
theorem c8_lookup_deterministic_witness :
    (rastriginEntry 2).lb = (rastriginEntry 2).lb ∧
    (rastriginEntry 2).ub = (rastriginEntry 2).ub ∧
    (rastriginEntry 2).xopt = (rastriginEntry 2).xopt ∧
    (rastriginEntry 2).fopt = (rastriginEntry 2).fopt ∧
    (rastriginEntry 2).cns = (rastriginEntry 2).cns ∧
    ∀ x : List ℝ, (rastriginEntry 2).obj x = (rastriginEntry 2).obj x :=
  c8_lookup_deterministic "1.12 Rastrigin Function" 2 (rastriginEntry 2) (rastriginEntry 2)
    rfl rfl

/-- Claim C9: every descriptor the catalog returns has its constraints field
cns equal to none, for every registered identifier and dimensionality. -/
theorem c9_cns_always_none :
    ∀ (name : String) (d : ℕ) (e : NonCons), nonConsInit name d = .ok e → e.cns = none := by
  intro name d e h
  have hm := nonConsInit_ok_mem name d e h
  fin_cases hm <;> rfl

/-- Witness for C9 at the Rastrigin entry. -/
theorem c9_cns_always_none_witness : (rastriginEntry 2).cns = none :=
  c9_cns_always_none "1.12 Rastrigin Function" 2 (rastriginEntry 2) rfl

/-- The five registered names whose branches raise before building a
descriptor. -/
def unimplNames : List String :=
  ["1.6 Gramacy & Lee (2012) Function", "1.9 Langermann Function",
   "3.4 Power Sum Function", "6.4 Forrester et al. (2008) Function",
   "6.7 Hartmann 4-D Function"]

/-- All 45 registered names, in branch order. -/
def registeredNames : List String :=
  ["1.1 Ackley Function", "1.2 Bukin Function N. 6", "1.3 Cross-in-Tray Function",
   "1.4 Drop-Wave Function", "1.5 Eggholder Function",
   "1.6 Gramacy & Lee (2012) Function", "1.7 Griewank Function",
   "1.8 Holder Table Function", "1.9 Langermann Function", "1.10 Levy Function",
   "1.11 Levy Function N. 13", "1.12 Rastrigin Function",
   "1.13 Schaffer Function N. 2", "1.14 Schaffer Function N. 4",
   "1.15 Schwefel Function", "1.16 Shubert Function", "2.1 Bohachevsky Functions",
   "2.2 Perm Function 0, d, β", "2.3 Rotated Hyper-Ellipsoid Function",
   "2.4 Sphere Function Modified", "2.5 Sum of Different Powers Function",
   "2.6 Sum Squares Function", "2.7 Trid Function", "3.1 Booth Function",
   "3.2 Matyas Function", "3.3 McCormick Function", "3.4 Power Sum Function",
   "3.5 Zakharov Function", "4.1 Three-Hump Camel Function",
   "4.2 Six-Hump Camel Function", "4.3 Dixon-Price Function",
   "4.4 Rosenbrock Function", "5.2 Easom Function", "5.3 Michalewicz Function",
   "6.1 Beale Function", "6.2 Branin Function", "6.3 Colville Function",
   "6.4 Forrester et al. (2008) Function", "6.5 Goldstein-Price Function",
   "6.6 Hartmann 3-D Function", "6.7 Hartmann 4-D Function",
   "6.8 Hartmann 6-D Function", "6.9 Perm Function d, β", "6.11 Shekel Function",
   "6.12 Styblinski-Tang Function"]

theorem branches_keys (d : ℕ) : (branches d).map Prod.fst = registeredNames := rfl

/-- Claim C3: looking up exactly the five names of unimplNames (Gramacy-Lee,
Langermann, Power Sum, Forrester, Hartmann 4-D) fails with the
raised-before-construction TypeError("Problem solution was not ready."), for
every dimensionality, and no other name fails this way. -/
theorem c3_unimplemented_exactly_five :
    ∀ (name : String) (d : ℕ),
      nonConsInit name d = .error (.typeError "Problem solution was not ready.") ↔
      name ∈ unimplNames := by
  intro name d
  constructor
  · intro h
    rw [nonConsInit_eq_chainLookup] at h
    rcases chainLookup_mem_or _ _ _ h with hm | hb
    · simp only [branches, List.mem_cons, Prod.mk.injEq, List.not_mem_nil,
        or_false] at hm
      simp only [unimplNames, List.mem_cons, List.not_mem_nil, or_false]
      tauto
    · injection hb with hb
      exact PyError.noConfusion hb
  · intro h
    simp only [unimplNames, List.mem_cons, List.not_mem_nil, or_false] at h
    rcases h with rfl | rfl | rfl | rfl | rfl <;> rfl

/-- Claim C4 (amended): looking up an identifier matching no registered name
always fails (never returns a descriptor), but the failure payload is the
constant string "Unkown problem name.", which does not name the offending
identifier (and in Python 3 raising this bare string is itself rejected with
a TypeError about BaseException). -/
theorem c4_unknown_name_fails_fixed_message :
    ∀ (name : String) (d : ℕ), name ∉ registeredNames →
      nonConsInit name d = .error (.badRaise "Unkown problem name.") := by
  intro name d hn
  rw [nonConsInit_eq_chainLookup]
  apply chainLookup_not_mem
  intro kv hkv heq
  apply hn
  rw [heq, ← branches_keys d]
  exact List.mem_map_of_mem _ hkv

/-- Witness for C4 at the identifier "not a real function". -/
theorem c4_unknown_name_fails_fixed_message_witness :
    nonConsInit "not a real function" 2 = .error (.badRaise "Unkown problem name.") :=
  c4_unknown_name_fails_fixed_message "not a real function" 2 (by decide)

/-- Whether the character list needle occurs contiguously inside hay; used to
state that a failure payload names (contains) an identifier. -/
def containsChars : List Char → List Char → Bool
  | [], needle => needle.isEmpty
  | h :: t, needle => needle.isPrefixOf (h :: t) || containsChars t needle

/-- Counterexample to C4 as stated: the lookup failure for the identifier
"not a real function" carries only the fixed payload "Unkown problem name.",
which does not contain (hence does not name) the offending identifier. -/
theorem c4_counterexample :
    nonConsInitD "not a real function" = .error (.badRaise "Unkown problem name.") ∧
    containsChars "Unkown problem name.".data "not a real function".data = false :=
  ⟨rfl, by decide⟩

/-! ### Per-entry bound lemmas: equal lengths and componentwise lb < ub. -/

theorem ackleyEntry_bnd (d : ℕ) : (ackleyEntry d).lb.length = (ackleyEntry d).ub.length ∧
    List.Forall₂ (· < ·) (ackleyEntry d).lb (ackleyEntry d).ub :=
  ⟨rfl, by norm_num [ackleyEntry, List.forall₂_cons]⟩

theorem griewankEntry_bnd (d : ℕ) : (griewankEntry d).lb.length = (griewankEntry d).ub.length ∧
    List.Forall₂ (· < ·) (griewankEntry d).lb (griewankEntry d).ub :=
  ⟨rfl, by norm_num [griewankEntry, List.forall₂_cons]⟩

theorem levyEntry_bnd (d : ℕ) : (levyEntry d).lb.length = (levyEntry d).ub.length ∧
    List.Forall₂ (· < ·) (levyEntry d).lb (levyEntry d).ub :=
  ⟨rfl, by norm_num [levyEntry, List.forall₂_cons]⟩

theorem rastriginEntry_bnd (d : ℕ) : (rastriginEntry d).lb.length = (rastriginEntry d).ub.length ∧
    List.Forall₂ (· < ·) (rastriginEntry d).lb (rastriginEntry d).ub :=
  ⟨rfl, by norm_num [rastriginEntry, List.forall₂_cons]⟩

theorem schwefelEntry_bnd (d : ℕ) : (schwefelEntry d).lb.length = (schwefelEntry d).ub.length ∧
    List.Forall₂ (· < ·) (schwefelEntry d).lb (schwefelEntry d).ub :=
  ⟨rfl, by norm_num [schwefelEntry, List.forall₂_cons]⟩

theorem bukinEntry_bnd : bukinEntry.lb.length = bukinEntry.ub.length ∧
    List.Forall₂ (· < ·) bukinEntry.lb bukinEntry.ub :=
  ⟨rfl, by norm_num [bukinEntry, List.forall₂_cons]⟩

theorem crossInTrayEntry_bnd : crossInTrayEntry.lb.length = crossInTrayEntry.ub.length ∧
    List.Forall₂ (· < ·) crossInTrayEntry.lb crossInTrayEntry.ub :=
  ⟨rfl, by norm_num [crossInTrayEntry, List.forall₂_cons]⟩

theorem dropWaveEntry_bnd : dropWaveEntry.lb.length = dropWaveEntry.ub.length ∧
    List.Forall₂ (· < ·) dropWaveEntry.lb dropWaveEntry.ub :=
  ⟨rfl, by norm_num [dropWaveEntry, List.forall₂_cons]⟩

theorem eggholderEntry_bnd : eggholderEntry.lb.length = eggholderEntry.ub.length ∧
    List.Forall₂ (· < ·) eggholderEntry.lb eggholderEntry.ub :=
  ⟨rfl, by norm_num [eggholderEntry, List.forall₂_cons]⟩

theorem holderTableEntry_bnd : holderTableEntry.lb.length = holderTableEntry.ub.length ∧
    List.Forall₂ (· < ·) holderTableEntry.lb holderTableEntry.ub :=
  ⟨rfl, by norm_num [holderTableEntry, List.forall₂_cons]⟩

theorem levy13Entry_bnd : levy13Entry.lb.length = levy13Entry.ub.length ∧
    List.Forall₂ (· < ·) levy13Entry.lb levy13Entry.ub :=
  ⟨rfl, by norm_num [levy13Entry, List.forall₂_cons]⟩

theorem schaffer2Entry_bnd : schaffer2Entry.lb.length = schaffer2Entry.ub.length ∧
    List.Forall₂ (· < ·) schaffer2Entry.lb schaffer2Entry.ub :=
  ⟨rfl, by norm_num [schaffer2Entry, List.forall₂_cons]⟩

theorem schaffer4Entry_bnd : schaffer4Entry.lb.length = schaffer4Entry.ub.length ∧
    List.Forall₂ (· < ·) schaffer4Entry.lb schaffer4Entry.ub :=
  ⟨rfl, by norm_num [schaffer4Entry, List.forall₂_cons]⟩

theorem shubertEntry_bnd : shubertEntry.lb.length = shubertEntry.ub.length ∧
    List.Forall₂ (· < ·) shubertEntry.lb shubertEntry.ub :=
  ⟨rfl, by norm_num [shubertEntry, List.forall₂_cons]⟩

theorem bohachevskyEntry_bnd : bohachevskyEntry.lb.length = bohachevskyEntry.ub.length ∧
    List.Forall₂ (· < ·) bohachevskyEntry.lb bohachevskyEntry.ub :=
  ⟨rfl, by norm_num [bohachevskyEntry, List.forall₂_cons]⟩

theorem boothEntry_bnd : boothEntry.lb.length = boothEntry.ub.length ∧
    List.Forall₂ (· < ·) boothEntry.lb boothEntry.ub :=
  ⟨rfl, by norm_num [boothEntry, List.forall₂_cons]⟩

theorem matyasEntry_bnd : matyasEntry.lb.length = matyasEntry.ub.length ∧
    List.Forall₂ (· < ·) matyasEntry.lb matyasEntry.ub :=
  ⟨rfl, by norm_num [matyasEntry, List.forall₂_cons]⟩

theorem mccormickEntry_bnd : mccormickEntry.lb.length = mccormickEntry.ub.length ∧
    List.Forall₂ (· < ·) mccormickEntry.lb mccormickEntry.ub :=
  ⟨rfl, by norm_num [mccormickEntry, List.forall₂_cons]⟩

theorem threeHumpEntry_bnd : threeHumpEntry.lb.length = threeHumpEntry.ub.length ∧
    List.Forall₂ (· < ·) threeHumpEntry.lb threeHumpEntry.ub :=
  ⟨rfl, by norm_num [threeHumpEntry, List.forall₂_cons]⟩

theorem sixHumpEntry_bnd : sixHumpEntry.lb.length = sixHumpEntry.ub.length ∧
    List.Forall₂ (· < ·) sixHumpEntry.lb sixHumpEntry.ub :=
  ⟨rfl, by norm_num [sixHumpEntry, List.forall₂_cons]⟩

theorem easomEntry_bnd : easomEntry.lb.length = easomEntry.ub.length ∧
    List.Forall₂ (· < ·) easomEntry.lb easomEntry.ub :=
  ⟨rfl, by norm_num [easomEntry, List.forall₂_cons]⟩

theorem bealeEntry_bnd : bealeEntry.lb.length = bealeEntry.ub.length ∧
    List.Forall₂ (· < ·) bealeEntry.lb bealeEntry.ub :=
  ⟨rfl, by norm_num [bealeEntry, List.forall₂_cons]⟩

theorem braninEntry_bnd : braninEntry.lb.length = braninEntry.ub.length ∧
    List.Forall₂ (· < ·) braninEntry.lb braninEntry.ub :=
  ⟨rfl, by norm_num [braninEntry, List.forall₂_cons]⟩

theorem goldsteinEntry_bnd : goldsteinEntry.lb.length = goldsteinEntry.ub.length ∧
    List.Forall₂ (· < ·) goldsteinEntry.lb goldsteinEntry.ub :=
  ⟨rfl, by norm_num [goldsteinEntry, List.forall₂_cons]⟩

theorem hartmann3Entry_bnd : hartmann3Entry.lb.length = hartmann3Entry.ub.length ∧
    List.Forall₂ (· < ·) hartmann3Entry.lb hartmann3Entry.ub :=
  ⟨rfl, by norm_num [hartmann3Entry, List.forall₂_cons]⟩

theorem shekelEntry_bnd : shekelEntry.lb.length = shekelEntry.ub.length ∧
    List.Forall₂ (· < ·) shekelEntry.lb shekelEntry.ub :=
  ⟨rfl, by norm_num [shekelEntry, List.forall₂_cons]⟩

theorem permZeroEntry_bnd (d : ℕ) : (permZeroEntry d).lb.length = (permZeroEntry d).ub.length ∧
    List.Forall₂ (· < ·) (permZeroEntry d).lb (permZeroEntry d).ub :=
  ⟨by simp [permZeroEntry], forall₂_replicate_of (by norm_num) d⟩

theorem rotHyperEntry_bnd (d : ℕ) : (rotHyperEntry d).lb.length = (rotHyperEntry d).ub.length ∧
    List.Forall₂ (· < ·) (rotHyperEntry d).lb (rotHyperEntry d).ub :=
  ⟨by simp [rotHyperEntry], forall₂_replicate_of (by norm_num) d⟩

theorem sumDiffPowEntry_bnd (d : ℕ) : (sumDiffPowEntry d).lb.length = (sumDiffPowEntry d).ub.length ∧
    List.Forall₂ (· < ·) (sumDiffPowEntry d).lb (sumDiffPowEntry d).ub :=
  ⟨by simp [sumDiffPowEntry], forall₂_replicate_of (by norm_num) d⟩

theorem sumSquaresEntry_bnd (d : ℕ) : (sumSquaresEntry d).lb.length = (sumSquaresEntry d).ub.length ∧
    List.Forall₂ (· < ·) (sumSquaresEntry d).lb (sumSquaresEntry d).ub :=
  ⟨by simp [sumSquaresEntry], forall₂_replicate_of (by norm_num) d⟩

theorem zakharovEntry_bnd (d : ℕ) : (zakharovEntry d).lb.length = (zakharovEntry d).ub.length ∧
    List.Forall₂ (· < ·) (zakharovEntry d).lb (zakharovEntry d).ub :=
  ⟨by simp [zakharovEntry], forall₂_replicate_of (by norm_num) d⟩

theorem dixonPriceEntry_bnd (d : ℕ) : (dixonPriceEntry d).lb.length = (dixonPriceEntry d).ub.length ∧
    List.Forall₂ (· < ·) (dixonPriceEntry d).lb (dixonPriceEntry d).ub :=
  ⟨by simp [dixonPriceEntry], forall₂_replicate_of (by norm_num) d⟩

theorem rosenbrockEntry_bnd (d : ℕ) : (rosenbrockEntry d).lb.length = (rosenbrockEntry d).ub.length ∧
    List.Forall₂ (· < ·) (rosenbrockEntry d).lb (rosenbrockEntry d).ub :=
  ⟨by simp [rosenbrockEntry], forall₂_replicate_of (by norm_num) d⟩

theorem styblinskiEntry_bnd (d : ℕ) : (styblinskiEntry d).lb.length = (styblinskiEntry d).ub.length ∧
    List.Forall₂ (· < ·) (styblinskiEntry d).lb (styblinskiEntry d).ub :=
  ⟨by simp [styblinskiEntry], forall₂_replicate_of (by norm_num) d⟩

theorem sphereModEntry_bnd : sphereModEntry.lb.length = sphereModEntry.ub.length ∧
    List.Forall₂ (· < ·) sphereModEntry.lb sphereModEntry.ub :=
  ⟨rfl, forall₂_replicate_of (by norm_num) 6⟩

theorem colvilleEntry_bnd : colvilleEntry.lb.length = colvilleEntry.ub.length ∧
    List.Forall₂ (· < ·) colvilleEntry.lb colvilleEntry.ub :=
  ⟨rfl, forall₂_replicate_of (by norm_num) 4⟩

theorem hartmann6Entry_bnd : hartmann6Entry.lb.length = hartmann6Entry.ub.length ∧
    List.Forall₂ (· < ·) hartmann6Entry.lb hartmann6Entry.ub :=
  ⟨rfl, forall₂_replicate_of (by norm_num) 6⟩

theorem michalewiczEntry_bnd (d : ℕ) :
    (michalewiczEntry d).lb.length = (michalewiczEntry d).ub.length ∧
    List.Forall₂ (· < ·) (michalewiczEntry d).lb (michalewiczEntry d).ub :=
  ⟨by simp [michalewiczEntry], forall₂_replicate_of (by linarith [Real.pi_gt_three]) d⟩

theorem tridEntry_bnd (d : ℕ) : (tridEntry d).lb.length = (tridEntry d).ub.length ∧
    List.Forall₂ (· < ·) (tridEntry d).lb (tridEntry d).ub := by
  refine ⟨by simp [tridEntry], ?_⟩
  cases d with
  | zero => exact List.Forall₂.nil
  | succ n =>
    refine forall₂_replicate_of ?_ (n + 1)
    have h0 : (0 : ℝ) < ((n + 1 : ℕ) : ℝ) := by exact_mod_cast Nat.succ_pos n
    nlinarith

theorem permDBEntry_bnd (d : ℕ) : (permDBEntry d).lb.length = (permDBEntry d).ub.length ∧
    List.Forall₂ (· < ·) (permDBEntry d).lb (permDBEntry d).ub := by
  refine ⟨by simp [permDBEntry], ?_⟩
  cases d with
  | zero => exact List.Forall₂.nil
  | succ n =>
    refine forall₂_replicate_of ?_ (n + 1)
    have h0 : (0 : ℝ) < ((n + 1 : ℕ) : ℝ) := by exact_mod_cast Nat.succ_pos n
    linarith


/-! ### Per-entry lemmas: at the default dimensionality every documented
optimum location lies inside the box bounds. -/

theorem bukinEntry_box : ∀ p ∈ bukinEntry.xopt,
    List.Forall₂ (· ≤ ·) bukinEntry.lb p ∧ List.Forall₂ (· ≤ ·) p bukinEntry.ub := by
  intro p hp
  simp only [bukinEntry, List.mem_cons, List.not_mem_nil, or_false] at hp
  subst hp
  constructor <;> norm_num [bukinEntry, List.forall₂_cons, List.replicate]

theorem dropWaveEntry_box : ∀ p ∈ dropWaveEntry.xopt,
    List.Forall₂ (· ≤ ·) dropWaveEntry.lb p ∧ List.Forall₂ (· ≤ ·) p dropWaveEntry.ub := by
  intro p hp
  simp only [dropWaveEntry, List.mem_cons, List.not_mem_nil, or_false] at hp
  subst hp
  constructor <;> norm_num [dropWaveEntry, List.forall₂_cons, List.replicate]

theorem eggholderEntry_box : ∀ p ∈ eggholderEntry.xopt,
    List.Forall₂ (· ≤ ·) eggholderEntry.lb p ∧ List.Forall₂ (· ≤ ·) p eggholderEntry.ub := by
  intro p hp
  simp only [eggholderEntry, List.mem_cons, List.not_mem_nil, or_false] at hp
  subst hp
  constructor <;> norm_num [eggholderEntry, List.forall₂_cons, List.replicate]

theorem levy13Entry_box : ∀ p ∈ levy13Entry.xopt,
    List.Forall₂ (· ≤ ·) levy13Entry.lb p ∧ List.Forall₂ (· ≤ ·) p levy13Entry.ub := by
  intro p hp
  simp only [levy13Entry, List.mem_cons, List.not_mem_nil, or_false] at hp
  subst hp
  constructor <;> norm_num [levy13Entry, List.forall₂_cons, List.replicate]

theorem schaffer2Entry_box : ∀ p ∈ schaffer2Entry.xopt,
    List.Forall₂ (· ≤ ·) schaffer2Entry.lb p ∧ List.Forall₂ (· ≤ ·) p schaffer2Entry.ub := by
  intro p hp
  simp only [schaffer2Entry, List.mem_cons, List.not_mem_nil, or_false] at hp
  subst hp
  constructor <;> norm_num [schaffer2Entry, List.forall₂_cons, List.replicate]

theorem schaffer4Entry_box : ∀ p ∈ schaffer4Entry.xopt,
    List.Forall₂ (· ≤ ·) schaffer4Entry.lb p ∧ List.Forall₂ (· ≤ ·) p schaffer4Entry.ub := by
  intro p hp
  simp only [schaffer4Entry, List.mem_cons, List.not_mem_nil, or_false] at hp
  subst hp
  constructor <;> norm_num [schaffer4Entry, List.forall₂_cons, List.replicate]

theorem shubertEntry_box : ∀ p ∈ shubertEntry.xopt,
    List.Forall₂ (· ≤ ·) shubertEntry.lb p ∧ List.Forall₂ (· ≤ ·) p shubertEntry.ub := by
  intro p hp
  simp only [shubertEntry, List.mem_cons, List.not_mem_nil, or_false] at hp
  subst hp
  constructor <;> norm_num [shubertEntry, List.forall₂_cons, List.replicate]

theorem bohachevskyEntry_box : ∀ p ∈ bohachevskyEntry.xopt,
    List.Forall₂ (· ≤ ·) bohachevskyEntry.lb p ∧ List.Forall₂ (· ≤ ·) p bohachevskyEntry.ub := by
  intro p hp
  simp only [bohachevskyEntry, List.mem_cons, List.not_mem_nil, or_false] at hp
  subst hp
  constructor <;> norm_num [bohachevskyEntry, List.forall₂_cons, List.replicate]

theorem sphereModEntry_box : ∀ p ∈ sphereModEntry.xopt,
    List.Forall₂ (· ≤ ·) sphereModEntry.lb p ∧ List.Forall₂ (· ≤ ·) p sphereModEntry.ub := by
  intro p hp
  simp only [sphereModEntry, List.mem_cons, List.not_mem_nil, or_false] at hp
  subst hp
  constructor <;> norm_num [sphereModEntry, List.forall₂_cons, List.replicate]

theorem boothEntry_box : ∀ p ∈ boothEntry.xopt,
    List.Forall₂ (· ≤ ·) boothEntry.lb p ∧ List.Forall₂ (· ≤ ·) p boothEntry.ub := by
  intro p hp
  simp only [boothEntry, List.mem_cons, List.not_mem_nil, or_false] at hp
  subst hp
  constructor <;> norm_num [boothEntry, List.forall₂_cons, List.replicate]

theorem matyasEntry_box : ∀ p ∈ matyasEntry.xopt,
    List.Forall₂ (· ≤ ·) matyasEntry.lb p ∧ List.Forall₂ (· ≤ ·) p matyasEntry.ub := by
  intro p hp
  simp only [matyasEntry, List.mem_cons, List.not_mem_nil, or_false] at hp
  subst hp
  constructor <;> norm_num [matyasEntry, List.forall₂_cons, List.replicate]

theorem mccormickEntry_box : ∀ p ∈ mccormickEntry.xopt,
    List.Forall₂ (· ≤ ·) mccormickEntry.lb p ∧ List.Forall₂ (· ≤ ·) p mccormickEntry.ub := by
  intro p hp
  simp only [mccormickEntry, List.mem_cons, List.not_mem_nil, or_false] at hp
  subst hp
  constructor <;> norm_num [mccormickEntry, List.forall₂_cons, List.replicate]

theorem threeHumpEntry_box : ∀ p ∈ threeHumpEntry.xopt,
    List.Forall₂ (· ≤ ·) threeHumpEntry.lb p ∧ List.Forall₂ (· ≤ ·) p threeHumpEntry.ub := by
  intro p hp
  simp only [threeHumpEntry, List.mem_cons, List.not_mem_nil, or_false] at hp
  subst hp
  constructor <;> norm_num [threeHumpEntry, List.forall₂_cons, List.replicate]

theorem bealeEntry_box : ∀ p ∈ bealeEntry.xopt,
    List.Forall₂ (· ≤ ·) bealeEntry.lb p ∧ List.Forall₂ (· ≤ ·) p bealeEntry.ub := by
  intro p hp
  simp only [bealeEntry, List.mem_cons, List.not_mem_nil, or_false] at hp
  subst hp
  constructor <;> norm_num [bealeEntry, List.forall₂_cons, List.replicate]

theorem colvilleEntry_box : ∀ p ∈ colvilleEntry.xopt,
    List.Forall₂ (· ≤ ·) colvilleEntry.lb p ∧ List.Forall₂ (· ≤ ·) p colvilleEntry.ub := by
  intro p hp
  simp only [colvilleEntry, List.mem_cons, List.not_mem_nil, or_false] at hp
  subst hp
  constructor <;> norm_num [colvilleEntry, List.forall₂_cons, List.replicate]

theorem goldsteinEntry_box : ∀ p ∈ goldsteinEntry.xopt,
    List.Forall₂ (· ≤ ·) goldsteinEntry.lb p ∧ List.Forall₂ (· ≤ ·) p goldsteinEntry.ub := by
  intro p hp
  simp only [goldsteinEntry, List.mem_cons, List.not_mem_nil, or_false] at hp
  subst hp
  constructor <;> norm_num [goldsteinEntry, List.forall₂_cons, List.replicate]

theorem hartmann3Entry_box : ∀ p ∈ hartmann3Entry.xopt,
    List.Forall₂ (· ≤ ·) hartmann3Entry.lb p ∧ List.Forall₂ (· ≤ ·) p hartmann3Entry.ub := by
  intro p hp
  simp only [hartmann3Entry, List.mem_cons, List.not_mem_nil, or_false] at hp
  subst hp
  constructor <;> norm_num [hartmann3Entry, List.forall₂_cons, List.replicate]

theorem hartmann6Entry_box : ∀ p ∈ hartmann6Entry.xopt,
    List.Forall₂ (· ≤ ·) hartmann6Entry.lb p ∧ List.Forall₂ (· ≤ ·) p hartmann6Entry.ub := by
  intro p hp
  simp only [hartmann6Entry, List.mem_cons, List.not_mem_nil, or_false] at hp
  subst hp
  constructor <;> norm_num [hartmann6Entry, List.forall₂_cons, List.replicate]

theorem shekelEntry_box : ∀ p ∈ shekelEntry.xopt,
    List.Forall₂ (· ≤ ·) shekelEntry.lb p ∧ List.Forall₂ (· ≤ ·) p shekelEntry.ub := by
  intro p hp
  simp only [shekelEntry, List.mem_cons, List.not_mem_nil, or_false] at hp
  subst hp
  constructor <;> norm_num [shekelEntry, List.forall₂_cons, List.replicate]

theorem ackleyEntry_box : ∀ p ∈ (ackleyEntry 2).xopt,
    List.Forall₂ (· ≤ ·) (ackleyEntry 2).lb p ∧ List.Forall₂ (· ≤ ·) p (ackleyEntry 2).ub := by
  intro p hp
  simp only [ackleyEntry, List.mem_cons, List.not_mem_nil, or_false] at hp
  subst hp
  constructor <;> norm_num [ackleyEntry, List.forall₂_cons, List.replicate]

theorem griewankEntry_box : ∀ p ∈ (griewankEntry 2).xopt,
    List.Forall₂ (· ≤ ·) (griewankEntry 2).lb p ∧ List.Forall₂ (· ≤ ·) p (griewankEntry 2).ub := by
  intro p hp
  simp only [griewankEntry, List.mem_cons, List.not_mem_nil, or_false] at hp
  subst hp
  constructor <;> norm_num [griewankEntry, List.forall₂_cons, List.replicate]

theorem levyEntry_box : ∀ p ∈ (levyEntry 2).xopt,
    List.Forall₂ (· ≤ ·) (levyEntry 2).lb p ∧ List.Forall₂ (· ≤ ·) p (levyEntry 2).ub := by
  intro p hp
  simp only [levyEntry, List.mem_cons, List.not_mem_nil, or_false] at hp
  subst hp
  constructor <;> norm_num [levyEntry, List.forall₂_cons, List.replicate]

theorem rastriginEntry_box : ∀ p ∈ (rastriginEntry 2).xopt,
    List.Forall₂ (· ≤ ·) (rastriginEntry 2).lb p ∧ List.Forall₂ (· ≤ ·) p (rastriginEntry 2).ub := by
  intro p hp
  simp only [rastriginEntry, List.mem_cons, List.not_mem_nil, or_false] at hp
  subst hp
  constructor <;> norm_num [rastriginEntry, List.forall₂_cons, List.replicate]

theorem schwefelEntry_box : ∀ p ∈ (schwefelEntry 2).xopt,
    List.Forall₂ (· ≤ ·) (schwefelEntry 2).lb p ∧ List.Forall₂ (· ≤ ·) p (schwefelEntry 2).ub := by
  intro p hp
  simp only [schwefelEntry, List.mem_cons, List.not_mem_nil, or_false] at hp
  subst hp
  constructor <;> norm_num [schwefelEntry, List.forall₂_cons, List.replicate]

theorem permZeroEntry_box : ∀ p ∈ (permZeroEntry 2).xopt,
    List.Forall₂ (· ≤ ·) (permZeroEntry 2).lb p ∧ List.Forall₂ (· ≤ ·) p (permZeroEntry 2).ub := by
  intro p hp
  simp only [permZeroEntry, List.mem_cons, List.not_mem_nil, or_false] at hp
  subst hp
  constructor <;> norm_num [permZeroEntry, List.forall₂_cons, List.replicate]

theorem rotHyperEntry_box : ∀ p ∈ (rotHyperEntry 2).xopt,
    List.Forall₂ (· ≤ ·) (rotHyperEntry 2).lb p ∧ List.Forall₂ (· ≤ ·) p (rotHyperEntry 2).ub := by
  intro p hp
  simp only [rotHyperEntry, List.mem_cons, List.not_mem_nil, or_false] at hp
  subst hp
  constructor <;> norm_num [rotHyperEntry, List.forall₂_cons, List.replicate]

theorem sumDiffPowEntry_box : ∀ p ∈ (sumDiffPowEntry 2).xopt,
    List.Forall₂ (· ≤ ·) (sumDiffPowEntry 2).lb p ∧ List.Forall₂ (· ≤ ·) p (sumDiffPowEntry 2).ub := by
  intro p hp
  simp only [sumDiffPowEntry, List.mem_cons, List.not_mem_nil, or_false] at hp
  subst hp
  constructor <;> norm_num [sumDiffPowEntry, List.forall₂_cons, List.replicate]

theorem sumSquaresEntry_box : ∀ p ∈ (sumSquaresEntry 2).xopt,
    List.Forall₂ (· ≤ ·) (sumSquaresEntry 2).lb p ∧ List.Forall₂ (· ≤ ·) p (sumSquaresEntry 2).ub := by
  intro p hp
  simp only [sumSquaresEntry, List.mem_cons, List.not_mem_nil, or_false] at hp
  subst hp
  constructor <;> norm_num [sumSquaresEntry, List.forall₂_cons, List.replicate]

theorem tridEntry_box : ∀ p ∈ (tridEntry 2).xopt,
    List.Forall₂ (· ≤ ·) (tridEntry 2).lb p ∧ List.Forall₂ (· ≤ ·) p (tridEntry 2).ub := by
  intro p hp
  simp only [tridEntry, List.mem_cons, List.not_mem_nil, or_false] at hp
  subst hp
  constructor <;> norm_num [tridEntry, List.forall₂_cons, List.replicate]

theorem zakharovEntry_box : ∀ p ∈ (zakharovEntry 2).xopt,
    List.Forall₂ (· ≤ ·) (zakharovEntry 2).lb p ∧ List.Forall₂ (· ≤ ·) p (zakharovEntry 2).ub := by
  intro p hp
  simp only [zakharovEntry, List.mem_cons, List.not_mem_nil, or_false] at hp
  subst hp
  constructor <;> norm_num [zakharovEntry, List.forall₂_cons, List.replicate]

theorem rosenbrockEntry_box : ∀ p ∈ (rosenbrockEntry 2).xopt,
    List.Forall₂ (· ≤ ·) (rosenbrockEntry 2).lb p ∧ List.Forall₂ (· ≤ ·) p (rosenbrockEntry 2).ub := by
  intro p hp
  simp only [rosenbrockEntry, List.mem_cons, List.not_mem_nil, or_false] at hp
  subst hp
  constructor <;> norm_num [rosenbrockEntry, List.forall₂_cons, List.replicate]

theorem permDBEntry_box : ∀ p ∈ (permDBEntry 2).xopt,
    List.Forall₂ (· ≤ ·) (permDBEntry 2).lb p ∧ List.Forall₂ (· ≤ ·) p (permDBEntry 2).ub := by
  intro p hp
  simp only [permDBEntry, List.mem_cons, List.not_mem_nil, or_false] at hp
  subst hp
  constructor <;> norm_num [permDBEntry, List.forall₂_cons, List.replicate]

theorem styblinskiEntry_box : ∀ p ∈ (styblinskiEntry 2).xopt,
    List.Forall₂ (· ≤ ·) (styblinskiEntry 2).lb p ∧ List.Forall₂ (· ≤ ·) p (styblinskiEntry 2).ub := by
  intro p hp
  simp only [styblinskiEntry, List.mem_cons, List.not_mem_nil, or_false] at hp
  subst hp
  constructor <;> norm_num [styblinskiEntry, List.forall₂_cons, List.replicate]

theorem crossInTrayEntry_box : ∀ p ∈ crossInTrayEntry.xopt,
    List.Forall₂ (· ≤ ·) crossInTrayEntry.lb p ∧ List.Forall₂ (· ≤ ·) p crossInTrayEntry.ub := by
  intro p hp
  simp only [crossInTrayEntry, List.mem_cons, List.not_mem_nil, or_false] at hp
  rcases hp with rfl | rfl | rfl | rfl <;>
    constructor <;> norm_num [crossInTrayEntry, List.forall₂_cons]

theorem holderTableEntry_box : ∀ p ∈ holderTableEntry.xopt,
    List.Forall₂ (· ≤ ·) holderTableEntry.lb p ∧ List.Forall₂ (· ≤ ·) p holderTableEntry.ub := by
  intro p hp
  simp only [holderTableEntry, List.mem_cons, List.not_mem_nil, or_false] at hp
  rcases hp with rfl | rfl | rfl | rfl <;>
    constructor <;> norm_num [holderTableEntry, List.forall₂_cons]

theorem sixHumpEntry_box : ∀ p ∈ sixHumpEntry.xopt,
    List.Forall₂ (· ≤ ·) sixHumpEntry.lb p ∧ List.Forall₂ (· ≤ ·) p sixHumpEntry.ub := by
  intro p hp
  simp only [sixHumpEntry, List.mem_cons, List.not_mem_nil, or_false] at hp
  rcases hp with rfl | rfl <;>
    constructor <;> norm_num [sixHumpEntry, List.forall₂_cons]

theorem braninEntry_box : ∀ p ∈ braninEntry.xopt,
    List.Forall₂ (· ≤ ·) braninEntry.lb p ∧ List.Forall₂ (· ≤ ·) p braninEntry.ub := by
  intro p hp
  simp only [braninEntry, List.mem_cons, List.not_mem_nil, or_false] at hp
  rcases hp with rfl | rfl | rfl <;>
    constructor <;>
      norm_num [braninEntry, List.forall₂_cons, Real.pi_le_four, Real.pi_pos.le] <;>
      nlinarith [Real.pi_le_four, Real.pi_pos]

theorem easomEntry_box : ∀ p ∈ easomEntry.xopt,
    List.Forall₂ (· ≤ ·) easomEntry.lb p ∧ List.Forall₂ (· ≤ ·) p easomEntry.ub := by
  intro p hp
  simp only [easomEntry, List.mem_cons, List.not_mem_nil, or_false] at hp
  subst hp
  have h1 := Real.pi_pos
  have h2 := Real.pi_le_four
  constructor
  · exact List.Forall₂.cons (by linarith) (List.Forall₂.cons (by linarith) List.Forall₂.nil)
  · exact List.Forall₂.cons (by linarith) (List.Forall₂.cons (by linarith) List.Forall₂.nil)

theorem michalewiczEntry_box : ∀ p ∈ (michalewiczEntry 2).xopt,
    List.Forall₂ (· ≤ ·) (michalewiczEntry 2).lb p ∧
    List.Forall₂ (· ≤ ·) p (michalewiczEntry 2).ub := by
  intro p hp
  simp only [michalewiczEntry, List.mem_cons, List.not_mem_nil, or_false] at hp
  subst hp
  have h1 := Real.pi_gt_d6
  constructor
  · norm_num [michalewiczEntry, List.forall₂_cons, List.replicate]
  · show List.Forall₂ (· ≤ ·) _ (List.replicate 2 Real.pi)
    exact List.Forall₂.cons (by linarith) (List.Forall₂.cons (by linarith) List.Forall₂.nil)

theorem dixonPriceEntry_box : ∀ p ∈ (dixonPriceEntry 2).xopt,
    List.Forall₂ (· ≤ ·) (dixonPriceEntry 2).lb p ∧
    List.Forall₂ (· ≤ ·) p (dixonPriceEntry 2).ub := by
  intro p hp
  simp only [dixonPriceEntry, List.mem_cons, List.not_mem_nil, or_false] at hp
  subst hp
  have h2a : (0 : ℝ) < (2 : ℝ) ^ (-(1 / 2) : ℝ) := Real.rpow_pos_of_pos (by norm_num) _
  have h2b : (2 : ℝ) ^ (-(1 / 2) : ℝ) ≤ 1 :=
    Real.rpow_le_one_of_one_le_of_nonpos (by norm_num) (by norm_num)
  constructor <;> norm_num [dixonPriceEntry, List.forall₂_cons, List.replicate] <;> linarith

/-- Claim C5 (amended): for every catalog entry and every dimensionality it is
constructed with, the bound vectors have equal length and satisfy
lowerBound[i] < upperBound[i] componentwise; the common length equals the
supplied dimensionality for the entries whose bounds are built from
np.ones(dimensions) (Perm 0dβ, Rotated Hyper-Ellipsoid, Sum of Different
Powers, Sum Squares, Trid, Zakharov, Dixon-Price, Rosenbrock, Michalewicz,
Perm dβ, Styblinski-Tang), while the remaining entries — including the
dimension-parametric Ackley, Griewank, Levy, Rastrigin and Schwefel — keep
hard-coded bound lengths regardless of the supplied dimensionality. -/
theorem c5_bounds_invariant :
    (∀ (name : String) (d : ℕ) (e : NonCons), nonConsInit name d = .ok e →
      e.lb.length = e.ub.length ∧ List.Forall₂ (· < ·) e.lb e.ub) ∧
    (∀ d : ℕ,
      (permZeroEntry d).lb.length = d ∧ (rotHyperEntry d).lb.length = d ∧
      (sumDiffPowEntry d).lb.length = d ∧ (sumSquaresEntry d).lb.length = d ∧
      (tridEntry d).lb.length = d ∧ (zakharovEntry d).lb.length = d ∧
      (dixonPriceEntry d).lb.length = d ∧ (rosenbrockEntry d).lb.length = d ∧
      (michalewiczEntry d).lb.length = d ∧ (permDBEntry d).lb.length = d ∧
      (styblinskiEntry d).lb.length = d) := by
  constructor
  · intro name d e h
    have hm := nonConsInit_ok_mem name d e h
    simp only [entriesOf, List.mem_cons, List.not_mem_nil, or_false] at hm
    rcases hm with rfl | rfl | rfl | rfl | rfl | rfl | rfl | rfl | rfl | rfl | rfl | rfl | rfl | rfl | rfl | rfl | rfl | rfl | rfl | rfl | rfl | rfl | rfl | rfl | rfl | rfl | rfl | rfl | rfl | rfl | rfl | rfl | rfl | rfl | rfl | rfl | rfl | rfl | rfl | rfl <;>
      first
        | exact ackleyEntry_bnd d
        | exact bukinEntry_bnd
        | exact crossInTrayEntry_bnd
        | exact dropWaveEntry_bnd
        | exact eggholderEntry_bnd
        | exact griewankEntry_bnd d
        | exact holderTableEntry_bnd
        | exact levyEntry_bnd d
        | exact levy13Entry_bnd
        | exact rastriginEntry_bnd d
        | exact schaffer2Entry_bnd
        | exact schaffer4Entry_bnd
        | exact schwefelEntry_bnd d
        | exact shubertEntry_bnd
        | exact bohachevskyEntry_bnd
        | exact permZeroEntry_bnd d
        | exact rotHyperEntry_bnd d
        | exact sphereModEntry_bnd
        | exact sumDiffPowEntry_bnd d
        | exact sumSquaresEntry_bnd d
        | exact tridEntry_bnd d
        | exact boothEntry_bnd
        | exact matyasEntry_bnd
        | exact mccormickEntry_bnd
        | exact zakharovEntry_bnd d
        | exact threeHumpEntry_bnd
        | exact sixHumpEntry_bnd
        | exact dixonPriceEntry_bnd d
        | exact rosenbrockEntry_bnd d
        | exact easomEntry_bnd
        | exact michalewiczEntry_bnd d
        | exact bealeEntry_bnd
        | exact braninEntry_bnd
        | exact colvilleEntry_bnd
        | exact goldsteinEntry_bnd
        | exact hartmann3Entry_bnd
        | exact hartmann6Entry_bnd
        | exact permDBEntry_bnd d
        | exact shekelEntry_bnd
        | exact styblinskiEntry_bnd d
  · intro d
    refine ⟨?_, ?_, ?_, ?_, ?_, ?_, ?_, ?_, ?_, ?_, ?_⟩ <;>
      simp [permZeroEntry, rotHyperEntry, sumDiffPowEntry, sumSquaresEntry, tridEntry,
        zakharovEntry, dixonPriceEntry, rosenbrockEntry, michalewiczEntry, permDBEntry,
        styblinskiEntry]

/-- Witness for C5 at the Rastrigin entry with the default dimensionality. -/
theorem c5_bounds_invariant_witness :
    (rastriginEntry 2).lb.length = (rastriginEntry 2).ub.length ∧
    List.Forall₂ (· < ·) (rastriginEntry 2).lb (rastriginEntry 2).ub :=
  c5_bounds_invariant.1 "1.12 Rastrigin Function" 2 (rastriginEntry 2) rfl

/-- Counterexample to C5 as stated: the Ackley entry constructed with
dimensionality 3 still has the hard-coded 2-component bound vectors, so
length(lowerBound) = dimensionality fails. -/
theorem c5_counterexample :
    nonConsInit "1.1 Ackley Function" 3 = .ok (ackleyEntry 3) ∧
    (ackleyEntry 3).lb.length = 2 ∧ (2 : ℕ) ≠ 3 :=
  ⟨rfl, rfl, by decide⟩

/-- Claim C10: for every implemented entry constructed at the default
dimensionality, every documented optimum location lies inside the box
bounds componentwise. -/
theorem c10_xopt_within_bounds :
    ∀ (name : String) (e : NonCons), nonConsInit name 2 = .ok e →
      ∀ p ∈ e.xopt, List.Forall₂ (· ≤ ·) e.lb p ∧ List.Forall₂ (· ≤ ·) p e.ub := by
  intro name e h
  have hm := nonConsInit_ok_mem name 2 e h
  simp only [entriesOf, List.mem_cons, List.not_mem_nil, or_false] at hm
  rcases hm with rfl | rfl | rfl | rfl | rfl | rfl | rfl | rfl | rfl | rfl | rfl | rfl | rfl | rfl | rfl | rfl | rfl | rfl | rfl | rfl | rfl | rfl | rfl | rfl | rfl | rfl | rfl | rfl | rfl | rfl | rfl | rfl | rfl | rfl | rfl | rfl | rfl | rfl | rfl | rfl <;>
    first
        | exact ackleyEntry_box
        | exact bukinEntry_box
        | exact crossInTrayEntry_box
        | exact dropWaveEntry_box
        | exact eggholderEntry_box
        | exact griewankEntry_box
        | exact holderTableEntry_box
        | exact levyEntry_box
        | exact levy13Entry_box
        | exact rastriginEntry_box
        | exact schaffer2Entry_box
        | exact schaffer4Entry_box
        | exact schwefelEntry_box
        | exact shubertEntry_box
        | exact bohachevskyEntry_box
        | exact permZeroEntry_box
        | exact rotHyperEntry_box
        | exact sphereModEntry_box
        | exact sumDiffPowEntry_box
        | exact sumSquaresEntry_box
        | exact tridEntry_box
        | exact boothEntry_box
        | exact matyasEntry_box
        | exact mccormickEntry_box
        | exact zakharovEntry_box
        | exact threeHumpEntry_box
        | exact sixHumpEntry_box
        | exact dixonPriceEntry_box
        | exact rosenbrockEntry_box
        | exact easomEntry_box
        | exact michalewiczEntry_box
        | exact bealeEntry_box
        | exact braninEntry_box
        | exact colvilleEntry_box
        | exact goldsteinEntry_box
        | exact hartmann3Entry_box
        | exact hartmann6Entry_box
        | exact permDBEntry_box
        | exact shekelEntry_box
        | exact styblinskiEntry_box

/-- Witness for C10 at the Rastrigin entry and its optimum location. -/
theorem c10_xopt_within_bounds_witness :
    List.Forall₂ (· ≤ ·) (rastriginEntry 2).lb [0, 0] ∧
    List.Forall₂ (· ≤ ·) [0, 0] (rastriginEntry 2).ub :=
  c10_xopt_within_bounds "1.12 Rastrigin Function" (rastriginEntry 2) rfl [0, 0]
    (List.mem_cons_self _ _)

/-! ### Helper lemmas for evaluator analysis -/

theorem exp_neg_le_third {t : ℝ} (h : 2 ≤ t) : Real.exp (-t) ≤ 1 / 3 := by
  have h3 : (3 : ℝ) ≤ Real.exp t := by
    have h4 := Real.add_one_le_exp t
    linarith
  rw [Real.exp_neg]
  have h5 : (Real.exp t)⁻¹ ≤ (3 : ℝ)⁻¹ := inv_anti₀ (by norm_num) h3
  linarith

theorem range_map_congr (f g : ℕ → ℝ) (d : ℕ) (h : ∀ k, k < d → f k = g k) :
    (List.range d).map f = (List.range d).map g := by
  induction d with
  | zero => rfl
  | succ n ih =>
    rw [List.range_succ, List.map_append, List.map_append,
      ih (fun k hk => h k (by omega))]
    simp [h n (by omega)]

/-- Claim C1 (the code violates it): three entries whose objective, evaluated
at their own documented optimum location, misses the documented optimum value
by far more than the 1e-3 tolerance.  Schaffer N. 4 documents xopt = [0,0]
and fopt = 0 but evaluates to 1 there; Sphere Modified documents fopt = 0 but
evaluates to -1745/899 at its documented origin optimum; Hartmann 6-D scales
its P matrix with 10^(-4), which on Python integers is bitwise XOR and equals
-10 rather than the intended 0.0001, so at its documented optimum the
objective is near -2.58/1.94 instead of its documented -3.32237. -/
theorem c1_known_optimum_roundtrip_fails :
    (nonConsInitD "1.14 Schaffer Function N. 4" = .ok schaffer4Entry ∧
      schaffer4Entry.xopt = [[0, 0]] ∧
      |schaffer4Entry.obj [0, 0] - schaffer4Entry.fopt| > 1e-3) ∧
    (nonConsInitD "2.4 Sphere Function Modified" = .ok sphereModEntry ∧
      sphereModEntry.xopt = [[0, 0, 0, 0, 0, 0]] ∧
      |sphereModEntry.obj [0, 0, 0, 0, 0, 0] - sphereModEntry.fopt| > 1e-3) ∧
    (nonConsInitD "6.8 Hartmann 6-D Function" = .ok hartmann6Entry ∧
      hartmann6Entry.xopt = [[0.20169, 0.150011, 0.476874, 0.275332, 0.311652, 0.6573]] ∧
      |hartmann6Entry.obj [0.20169, 0.150011, 0.476874, 0.275332, 0.311652, 0.6573] -
        hartmann6Entry.fopt| > 1e-3) := by
  refine ⟨⟨rfl, by norm_num [schaffer4Entry], ?_⟩,
    ⟨rfl, by norm_num [sphereModEntry], ?_⟩, ⟨rfl, rfl, ?_⟩⟩
  · have h : schaffer4Obj [0, 0] = 1 := by
      simp [schaffer4Obj, nth0]
      norm_num
    show |schaffer4Obj [0, 0] - (0.0 : ℝ)| > 1e-3
    rw [h]
    norm_num
  · have h : sphereModObj [0, 0, 0, 0, 0, 0] = -1745.0 / 899.0 := by
      norm_num [sphereModObj, nth0, List.range_succ]
    show |sphereModObj [0, 0, 0, 0, 0, 0] - (0.0 : ℝ)| > 1e-3
    rw [h]
    have habs : |(1745 : ℝ) / 899| = 1745 / 899 := abs_of_nonneg (by norm_num)
    norm_num [habs]
  · have h1 : h6scale = -10 := by decide
    have hi0 : (2 : ℝ) ≤ h6inner [0.20169, 0.150011, 0.476874, 0.275332, 0.311652, 0.6573] 0 := by
      norm_num [h6inner, h6A, h6P, nth2, nth0, h1, List.range_succ]
    have hi1 : (2 : ℝ) ≤ h6inner [0.20169, 0.150011, 0.476874, 0.275332, 0.311652, 0.6573] 1 := by
      norm_num [h6inner, h6A, h6P, nth2, nth0, h1, List.range_succ]
    have hi2 : (2 : ℝ) ≤ h6inner [0.20169, 0.150011, 0.476874, 0.275332, 0.311652, 0.6573] 2 := by
      norm_num [h6inner, h6A, h6P, nth2, nth0, h1, List.range_succ]
    have hi3 : (2 : ℝ) ≤ h6inner [0.20169, 0.150011, 0.476874, 0.275332, 0.311652, 0.6573] 3 := by
      norm_num [h6inner, h6A, h6P, nth2, nth0, h1, List.range_succ]
    have hu0 := exp_neg_le_third hi0
    have hu1 := exp_neg_le_third hi1
    have hu2 := exp_neg_le_third hi2
    have hu3 := exp_neg_le_third hi3
    have hp0 := Real.exp_pos (-h6inner [0.20169, 0.150011, 0.476874, 0.275332, 0.311652, 0.6573] 0)
    have hp1 := Real.exp_pos (-h6inner [0.20169, 0.150011, 0.476874, 0.275332, 0.311652, 0.6573] 1)
    have hp2 := Real.exp_pos (-h6inner [0.20169, 0.150011, 0.476874, 0.275332, 0.311652, 0.6573] 2)
    have hp3 := Real.exp_pos (-h6inner [0.20169, 0.150011, 0.476874, 0.275332, 0.311652, 0.6573] 3)
    have hval : hartmann6Obj [0.20169, 0.150011, 0.476874, 0.275332, 0.311652, 0.6573] -
        hartmann6Entry.fopt > 1e-3 := by
      show hartmann6Obj _ - (-3.32237 : ℝ) > 1e-3
      simp only [hartmann6Obj, show List.range 4 = [0, 1, 2, 3] from rfl, List.map_cons,
        List.map_nil, List.sum_cons, List.sum_nil, h6alpha, nth0, List.getD_cons_zero,
        List.getD_cons_succ]
      norm_num
      linarith
    calc (1e-3 : ℝ) < _ := hval
      _ ≤ _ := le_abs_self _

/-- Counterexample to C2 as stated: evaluating the Ackley entry constructed
with dimensionality 2 at the 3-component point [0,0,0] does not fail with any
dimension error; the evaluator performs no length check and returns the value
e - e^(3/2), which is nonzero precisely because all three supplied components
enter the sums. -/
theorem c2_counterexample :
    (ackleyEntry 2).obj [0, 0, 0] = Real.exp 1 - Real.exp (3 / 2) ∧
    Real.exp 1 - Real.exp (3 / 2) ≠ 0 := by
  constructor
  · show ackleyObj 2 [0, 0, 0] = _
    simp [ackleyObj]
    norm_num
    try ring
  · exact ne_of_lt (sub_neg.mpr (Real.exp_lt_exp.mpr (by norm_num)))

/-- Claim C2 (amended): the Ackley evaluator constructed with dimensionality 2
accepts a 3-component point without any failure: it is total, computes the
sums over all three supplied components, and normalizes them by the
constructed dimensionality 2.  No DimensionMismatch check exists anywhere in
the constructor; mismatched points are silently accepted, not truncated or
zero-padded. -/
theorem c2_evaluator_has_no_length_check :
    ∀ a b c : ℝ, (ackleyEntry 2).obj [a, b, c] =
      -20 * Real.exp (-0.2 * Real.sqrt ((a ^ 2 + b ^ 2 + c ^ 2) / 2)) -
      Real.exp ((Real.cos (2 * Real.pi * a) + Real.cos (2 * Real.pi * b) +
        Real.cos (2 * Real.pi * c)) / 2) + 20 + Real.exp 1 := by
  intro a b c
  show ackleyObj 2 [a, b, c] = _
  simp [ackleyObj]
  norm_num
  ring_nf

/-- Counterexample to C6 as stated: the Ackley evaluator constructed with
d = 2 does not sum over exactly 2 components of its input; a third supplied
component changes the result. -/
theorem c6_counterexample : (ackleyEntry 2).obj [0, 0, 0] ≠ (ackleyEntry 2).obj [0, 0] := by
  have hL : ackleyObj 2 [0, 0, 0] = Real.exp 1 - Real.exp (3 / 2) := by
    simp [ackleyObj]
    norm_num
    try ring
  have hR : ackleyObj 2 [0, 0] = 0 := by
    simp [ackleyObj]
    try norm_num
  show ackleyObj 2 [0, 0, 0] ≠ ackleyObj 2 [0, 0]
  rw [hL, hR]
  exact ne_of_lt (sub_neg.mpr (Real.exp_lt_exp.mpr (by norm_num)))

/-- Claim C6 (amended): evaluators with indexed loops, such as Griewank,
depend on exactly the first d components of the supplied point (extra
components are ignored), whereas Ackley and Rastrigin iterate over every
supplied component regardless of d — appending a component always contributes
one more term to Rastrigin — and Levy reads only the first two components
regardless of d (its loops are hard-coded to the two-dimensional case, and
for d of at least 3 the source indexes past the end of its two-element
auxiliary list).  On a point of length exactly d these loop extents coincide
with the claimed per-dimension sums for Griewank, Ackley and Rastrigin, and
for Levy only at d = 2. -/
theorem c6_loop_extents :
    (∀ (d : ℕ) (x : List ℝ), d ≤ x.length → griewankObj d x = griewankObj d (x.take d)) ∧
    (∀ (d : ℕ) (x : List ℝ) (y : ℝ),
      rastriginObj d (x ++ [y]) =
        rastriginObj d x + (y ^ 2 - 10 * Real.cos (2 * Real.pi * y))) ∧
    (∀ x : List ℝ, 2 ≤ x.length → levyObj 2 x = levyObj 2 (x.take 2)) := by
  refine ⟨?_, ?_, ?_⟩
  · intro d x _
    have h1 : (List.range d).map (fun k : ℕ => nth0 (x.take d) k ^ 2 / 4000.0) =
        (List.range d).map (fun k : ℕ => nth0 x k ^ 2 / 4000.0) :=
      range_map_congr _ _ d (fun k hk => by rw [nth0_take x d k hk])
    have h2 : (List.range d).map
          (fun k : ℕ => Real.cos (nth0 (x.take d) k / Real.sqrt ((k : ℝ) + 1))) =
        (List.range d).map (fun k : ℕ => Real.cos (nth0 x k / Real.sqrt ((k : ℝ) + 1))) :=
      range_map_congr _ _ d (fun k hk => by rw [nth0_take x d k hk])
    simp only [griewankObj, h1, h2]
  · intro d x y
    simp only [rastriginObj, List.map_append, List.sum_append, List.map_cons, List.map_nil,
      List.sum_cons, List.sum_nil]
    norm_num
    ring
  · intro x _
    have hw : (List.range 2).map (fun i : ℕ => 1.0 + (nth0 (x.take 2) i - 1.0) / 4.0) =
        (List.range 2).map (fun i : ℕ => 1.0 + (nth0 x i - 1.0) / 4.0) :=
      range_map_congr _ _ 2 (fun k hk => by rw [nth0_take x 2 k hk])
    simp only [levyObj, hw]

/-- Witness for C6: the Griewank and Levy parts at concrete inputs. -/
theorem c6_loop_extents_witness :
    griewankObj 2 [0, 0, 0] = griewankObj 2 ([0, 0, 0].take 2) ∧
    levyObj 2 [1, 1, 5] = levyObj 2 ([1, 1, 5].take 2) :=
  ⟨c6_loop_extents.1 2 [0, 0, 0] (by norm_num),
    c6_loop_extents.2.2 [1, 1, 5] (by norm_num)⟩
